import Mathlib

/-!
Shallow embedding of the Ghibli image download/optimization script
(`scripts/download-images.js`, here `src/unnamed/part_000`) and of the
image-path lookup helpers (`src/lib/images.ts`, in both its caller-supplied
fallback and fixed-placeholder variants).

Effects are made explicit: the network is an oracle `dl : String → HttpResult`
giving, for each image URL, either a response with a status code or a
transport error; the external `cwebp` encoder is an oracle
`cv : String → String → Bool` saying whether conversion of a given
input/output pair succeeds; the filesystem is the list of paths that
currently exist.  Console output is not modelled; the externally visible
events (network requests, encoder invocations) are recorded in a trace.
-/

namespace AstroOblig3

/-- A film record fetched from the Ghibli API.  `image` is the poster URL and
`movie_banner` the banner URL; `none` models an absent field (JS
`undefined`/`null`).  An empty string is present but falsy in JS, so the
script's `if (film.image)` guard also skips it; see `truthy`. -/
structure Film where
  id : String
  title : String
  image : Option String
  movie_banner : Option String
deriving DecidableEq, Repr

/-- JS truthiness of an optional string field: `undefined`, `null` and `""`
are falsy. -/
def truthy : Option String → Bool
  | none => false
  | some s => s != ""

/-- Outcome of one HTTPS GET: a response carrying a status code, or a
transport error (the `error` event of `https.get`). -/
inductive HttpResult where
  | response (statusCode : Nat)
  | transportError
deriving DecidableEq, Repr

/-- The script's success test `response.statusCode === 200`. -/
def isSuccess : HttpResult → Bool
  | .response s => s == 200
  | .transportError => false

/-- The filesystem, as the list of paths that exist. -/
abbrev FS := List String

/-- Creating a file at a path (e.g. `fs.createWriteStream(dest)` opening
`dest`): the path now exists. -/
def fsCreate (fs : FS) (p : String) : FS :=
  if fs.contains p then fs else p :: fs

/-- Deleting a file (`fs.unlink` / `fs.unlinkSync`). -/
def fsRemove (fs : FS) (p : String) : FS :=
  fs.filter (fun q => q != p)

/-- `downloadFile(url, dest)` from the script: `fs.createWriteStream(dest)`
creates the destination file; on status 200 the body is piped into it and the
promise resolves; on any other status the promise rejects with the
destination file left as created; on a transport error `fs.unlink(dest)` runs
and the promise rejects.  Returns whether the promise resolved, and the
resulting filesystem. -/
def downloadFile (dl : String → HttpResult) (url dest : String) (fs : FS) :
    Bool × FS :=
  let fs1 := fsCreate fs dest
  match dl url with
  | .response s => if s == 200 then (true, fs1) else (false, fs1)
  | .transportError => (false, fsRemove fs1 dest)

/-- The shell command `convertToWebP` builds:
`cwebp -q ${quality} "${inputPath}" -o "${outputPath}"`. -/
def cwebpCommand (quality : Nat) (inputPath outputPath : String) : String :=
  "cwebp -q " ++ toString quality ++ " \"" ++ inputPath ++ "\" -o \""
    ++ outputPath ++ "\""

/-- `convertToWebP(inputPath, outputPath, quality = 60)` from the script:
run the `cwebp` command; on success the output file exists and the original
input is deleted (`fs.unlinkSync(inputPath)`); on failure the error is
rethrown and the filesystem is left as it was.  Returns whether it succeeded,
the resulting filesystem, and the command string that was executed. -/
def convertToWebP (cv : String → String → Bool) (inputPath outputPath : String)
    (fs : FS) (quality : Nat := 60) : Bool × FS × String :=
  let command := cwebpCommand quality inputPath outputPath
  if cv inputPath outputPath then
    (true, fsRemove (fsCreate fs outputPath) inputPath, command)
  else
    (false, fs, command)

/-- One entry of the image mapping: optional site-relative `poster` and
`banner` paths. -/
structure Entry where
  poster : Option String := none
  banner : Option String := none
deriving DecidableEq, Repr

/-- The in-memory `imageMapping` object: an association list keyed by film
id.  A JS object's keys are unique; the operations below preserve that. -/
abbrev Mapping := List (String × Entry)

def keys (m : Mapping) : List String := m.map (·.1)

/-- `imageMapping[filmId] = v`: replace the value at an existing key,
otherwise append the new key. -/
def setKey (m : Mapping) (k : String) (v : Entry) : Mapping :=
  if (keys m).contains k then
    m.map (fun p => if p.1 == k then (k, v) else p)
  else
    m ++ [(k, v)]

/-- Mutating the entry object stored at a key
(`imageMapping[filmId].poster = …`). -/
def updateKey (m : Mapping) (k : String) (f : Entry → Entry) : Mapping :=
  m.map (fun p => if p.1 == k then (p.1, f p.2) else p)

/-- `mapping[filmId]` as an optional lookup. -/
def lookupEntry (m : Mapping) (k : String) : Option Entry :=
  (m.find? (fun p => p.1 == k)).map (·.2)

/-- Externally visible events of a run, in order: the films-list fetch, each
image GET (`downloadFile`) with its URL and destination path, and each
encoder invocation with the exact command string. -/
inductive Event where
  | fetchFilms
  | downloadAttempt (url dest : String)
  | convertAttempt (command : String)
deriving DecidableEq, Repr

/-- `IMAGES_DIR = path.join(__dirname, "../public/images")`. -/
def IMAGES_DIR : String := "../public/images"

def pathJoin (a b : String) : String := a ++ "/" ++ b

def posterTempPath (filmId : String) : String :=
  pathJoin IMAGES_DIR (filmId ++ "-poster.jpg")

def posterFinalPath (filmId : String) : String :=
  pathJoin IMAGES_DIR (filmId ++ "-poster.webp")

def bannerTempPath (filmId : String) : String :=
  pathJoin IMAGES_DIR (filmId ++ "-banner.jpg")

def bannerFinalPath (filmId : String) : String :=
  pathJoin IMAGES_DIR (filmId ++ "-banner.webp")

/-- The mutable state of `main`'s loop: the mapping accumulator, the
`downloadedCount` counter, the filesystem, and the event trace. -/
structure PipelineState where
  mapping : Mapping
  downloadedCount : Nat
  fs : FS
  events : List Event
deriving Repr

/-- The poster block of `main`'s loop body: if `film.image` is truthy,
download to `{id}-poster.jpg`, convert to `{id}-poster.webp` (quality left at
its default 60), and on full success record
`imageMapping[filmId].poster = "/images/{id}-poster.webp"` and increment
`downloadedCount`; any failure is caught, leaving mapping and counter
untouched. -/
def processPoster (dl : String → HttpResult) (cv : String → String → Bool)
    (film : Film) (st : PipelineState) : PipelineState :=
  match film.image with
  | none => st
  | some url =>
    if url == "" then st
    else
      let tempPath := posterTempPath film.id
      let finalPath := posterFinalPath film.id
      let st1 := { st with
        events := st.events ++ [Event.downloadAttempt url tempPath] }
      let r := downloadFile dl url tempPath st1.fs
      if r.1 then
        let c := convertToWebP cv tempPath finalPath r.2
        let st2 := { st1 with
          fs := c.2.1
          events := st1.events ++ [Event.convertAttempt c.2.2] }
        if c.1 then
          { st2 with
            mapping := updateKey st2.mapping film.id (fun e =>
              { e with poster := some ("/images/" ++ film.id ++ "-poster.webp") })
            downloadedCount := st2.downloadedCount + 1 }
        else st2
      else { st1 with fs := r.2 }

/-- The banner block of `main`'s loop body, mirroring `processPoster` with
`film.movie_banner` and the `-banner` paths. -/
def processBanner (dl : String → HttpResult) (cv : String → String → Bool)
    (film : Film) (st : PipelineState) : PipelineState :=
  match film.movie_banner with
  | none => st
  | some url =>
    if url == "" then st
    else
      let tempPath := bannerTempPath film.id
      let finalPath := bannerFinalPath film.id
      let st1 := { st with
        events := st.events ++ [Event.downloadAttempt url tempPath] }
      let r := downloadFile dl url tempPath st1.fs
      if r.1 then
        let c := convertToWebP cv tempPath finalPath r.2
        let st2 := { st1 with
          fs := c.2.1
          events := st1.events ++ [Event.convertAttempt c.2.2] }
        if c.1 then
          { st2 with
            mapping := updateKey st2.mapping film.id (fun e =>
              { e with banner := some ("/images/" ++ film.id ++ "-banner.webp") })
            downloadedCount := st2.downloadedCount + 1 }
        else st2
      else { st1 with fs := r.2 }

/-- One iteration of `for (const film of films)`:
`imageMapping[filmId] = {}`, then the poster block, then the banner block. -/
def processFilm (dl : String → HttpResult) (cv : String → String → Bool)
    (st : PipelineState) (film : Film) : PipelineState :=
  let st0 := { st with mapping := setKey st.mapping film.id {} }
  processBanner dl cv film (processPoster dl cv film st0)

/-- The whole film loop. -/
def processFilms (dl : String → HttpResult) (cv : String → String → Bool)
    (st : PipelineState) (films : List Film) : PipelineState :=
  films.foldl (processFilm dl cv) st

/-- Outcome of `fetch(`${API_BASE}/films`)` followed by `response.json()`:
either the film list, or a thrown error. -/
inductive FetchResult where
  | ok (films : List Film)
  | fetchError
deriving Repr

/-- Observable result of one process run. -/
structure RunResult where
  exitCode : Nat
  /-- The mapping written by `fs.writeFileSync(MAPPING_FILE, …)`, or `none`
  if the run aborted before reaching it. -/
  mappingWritten : Option Mapping
  downloadedCount : Nat
  totalImages : Nat
  events : List Event
  fs : FS
deriving Repr

/-- `main()`: probe for `cwebp` (`which cwebp`); if absent, `process.exit(1)`
before any network activity.  Otherwise fetch the film list; a fetch failure
is caught by the top-level handler, which exits 1.  Otherwise run the loop
over all films, write the mapping file, print the summary, and finish
normally (exit code 0). -/
def runMain (cwebpPresent : Bool) (fetch : FetchResult)
    (dl : String → HttpResult) (cv : String → String → Bool) (fs0 : FS) :
    RunResult :=
  if cwebpPresent then
    match fetch with
    | .fetchError =>
      { exitCode := 1, mappingWritten := none, downloadedCount := 0
        totalImages := 0, events := [Event.fetchFilms], fs := fs0 }
    | .ok films =>
      let st := processFilms dl cv
        { mapping := [], downloadedCount := 0, fs := fs0
          events := [Event.fetchFilms] } films
      { exitCode := 0, mappingWritten := some st.mapping
        downloadedCount := st.downloadedCount
        totalImages := films.length * 2, events := st.events, fs := st.fs }
  else
    { exitCode := 1, mappingWritten := none, downloadedCount := 0
      totalImages := 0, events := [], fs := fs0 }

/-- `files.reduce((acc, file) => acc + statSync(filePath).size, 0)` over the
listing of `IMAGES_DIR`; `size` stands for `fs.statSync(path).size`. -/
def totalSizeBytes (files : List String) (size : String → Nat) : Nat :=
  files.foldl (fun acc f => acc + size f) 0

/-- The figures printed by the summary block, in KB.  JS floating point is
idealized as exact rational arithmetic; the multipliers `2.7` and `1.7`
become `27/10` and `17/10`. -/
structure Summary where
  totalKB : ℚ
  estimatedOriginalKB : ℚ
  estimatedSavingsKB : ℚ
deriving DecidableEq, Repr

/-- The summary computation: `totalSize / 1024` KB of WebP output,
`(totalSize / 1024) * 2.7` KB estimated original,
`(totalSize / 1024) * 1.7` KB estimated savings. -/
def mkSummary (files : List String) (size : String → Nat) : Summary :=
  let totalSize := totalSizeBytes files size
  { totalKB := (totalSize : ℚ) / 1024
    estimatedOriginalKB := (totalSize : ℚ) / 1024 * (27 / 10)
    estimatedSavingsKB := (totalSize : ℚ) / 1024 * (17 / 10) }

/-- JS `x || fallback` where `x` is a string-or-undefined: `undefined` and
`""` both yield the fallback. -/
def jsOrString (v : Option String) (fallback : String) : String :=
  match v with
  | none => fallback
  | some s => if s == "" then fallback else s

namespace LibImages

/-- `getFilmPoster(filmId, fallbackUrl)` from `src/lib/images.ts`
(caller-supplied fallback variant):
`mapping[filmId]?.poster || fallbackUrl`. -/
def getFilmPoster (mapping : Mapping) (filmId fallbackUrl : String) : String :=
  jsOrString ((lookupEntry mapping filmId).bind (·.poster)) fallbackUrl

/-- `getFilmBanner(filmId, fallbackUrl)`:
`mapping[filmId]?.banner || fallbackUrl`. -/
def getFilmBanner (mapping : Mapping) (filmId fallbackUrl : String) : String :=
  jsOrString ((lookupEntry mapping filmId).bind (·.banner)) fallbackUrl

end LibImages

namespace PlaceholderImages

/-- `getFilmPoster(filmId)` from the fixed-placeholder variant of
`src/lib/images.ts`: `mapping[filmId]?.poster || "/images/placeholder.webp"`. -/
def getFilmPoster (mapping : Mapping) (filmId : String) : String :=
  jsOrString ((lookupEntry mapping filmId).bind (·.poster))
    "/images/placeholder.webp"

/-- `getFilmBanner(filmId)`:
`mapping[filmId]?.banner || "/images/placeholder.webp"`. -/
def getFilmBanner (mapping : Mapping) (filmId : String) : String :=
  jsOrString ((lookupEntry mapping filmId).bind (·.banner))
    "/images/placeholder.webp"

end PlaceholderImages

/-! ### Pure per-film characterizations

The loop body only consults the oracles, never the filesystem, to decide
what to record; these functions compute each component of its effect. -/

/-- Whether the poster of a film ends up fully processed: the `image` field
is truthy, the download resolves (status 200), and the conversion succeeds. -/
def posterOk (dl : String → HttpResult) (cv : String → String → Bool)
    (film : Film) : Bool :=
  match film.image with
  | none => false
  | some url =>
    if url == "" then false
    else isSuccess (dl url)
      && cv (posterTempPath film.id) (posterFinalPath film.id)

/-- Whether the banner of a film ends up fully processed. -/
def bannerOk (dl : String → HttpResult) (cv : String → String → Bool)
    (film : Film) : Bool :=
  match film.movie_banner with
  | none => false
  | some url =>
    if url == "" then false
    else isSuccess (dl url)
      && cv (bannerTempPath film.id) (bannerFinalPath film.id)

/-- The mapping entry a film ends up with. -/
def entryFor (dl : String → HttpResult) (cv : String → String → Bool)
    (film : Film) : Entry :=
  { poster := if posterOk dl cv film then
      some ("/images/" ++ film.id ++ "-poster.webp") else none
    banner := if bannerOk dl cv film then
      some ("/images/" ++ film.id ++ "-banner.webp") else none }

/-- Events emitted by the poster block: a download attempt when the field is
truthy, followed by an encoder invocation when the download resolved
(whatever the encoder's outcome). -/
def posterEvents (dl : String → HttpResult) (film : Film) : List Event :=
  match film.image with
  | none => []
  | some url =>
    if url == "" then []
    else
      [Event.downloadAttempt url (posterTempPath film.id)]
        ++ (if isSuccess (dl url) then
              [Event.convertAttempt (cwebpCommand 60 (posterTempPath film.id)
                (posterFinalPath film.id))]
            else [])

/-- Events emitted by the banner block. -/
def bannerEvents (dl : String → HttpResult) (film : Film) : List Event :=
  match film.movie_banner with
  | none => []
  | some url =>
    if url == "" then []
    else
      [Event.downloadAttempt url (bannerTempPath film.id)]
        ++ (if isSuccess (dl url) then
              [Event.convertAttempt (cwebpCommand 60 (bannerTempPath film.id)
                (bannerFinalPath film.id))]
            else [])

/-- Events emitted while processing one film: poster block first, then the
banner block. -/
def filmEvents (dl : String → HttpResult) (film : Film) : List Event :=
  posterEvents dl film ++ bannerEvents dl film

/-- The filesystem transformation of the poster block. -/
def posterFs (dl : String → HttpResult) (cv : String → String → Bool)
    (film : Film) (fs : FS) : FS :=
  match film.image with
  | none => fs
  | some url =>
    if url == "" then fs
    else
      let t := posterTempPath film.id
      let f := posterFinalPath film.id
      match dl url with
      | .transportError => fsRemove (fsCreate fs t) t
      | .response s =>
        if s == 200 then
          if cv t f then fsRemove (fsCreate (fsCreate fs t) f) t
          else fsCreate fs t
        else fsCreate fs t

/-- The filesystem transformation of the banner block. -/
def bannerFs (dl : String → HttpResult) (cv : String → String → Bool)
    (film : Film) (fs : FS) : FS :=
  match film.movie_banner with
  | none => fs
  | some url =>
    if url == "" then fs
    else
      let t := bannerTempPath film.id
      let f := bannerFinalPath film.id
      match dl url with
      | .transportError => fsRemove (fsCreate fs t) t
      | .response s =>
        if s == 200 then
          if cv t f then fsRemove (fsCreate (fsCreate fs t) f) t
          else fsCreate fs t
        else fsCreate fs t

/-- `downloadedCount` increments contributed by one film. -/
def filmDelta (dl : String → HttpResult) (cv : String → String → Bool)
    (film : Film) : Nat :=
  (if posterOk dl cv film then 1 else 0)
    + (if bannerOk dl cv film then 1 else 0)

/-- The number of mapping entries that carry a poster field. -/
def countPosters (m : Mapping) : Nat :=
  m.countP (fun p => p.2.poster.isSome)

/-- The number of mapping entries that carry a banner field. -/
def countBanners (m : Mapping) : Nat :=
  m.countP (fun p => p.2.banner.isSome)

/-! ### Association-list lemmas -/

theorem keys_append (m1 m2 : Mapping) : keys (m1 ++ m2) = keys m1 ++ keys m2 := by
  simp [keys]

theorem setKey_fresh {m : Mapping} {k : String} (v : Entry)
    (h : k ∉ keys m) : setKey m k v = m ++ [(k, v)] := by
  have hc : ¬ ((keys m).contains k = true) := by
    simpa using h
  simp only [setKey]
  rw [if_neg hc]

theorem updateKey_of_not_mem {m : Mapping} {k : String} (f : Entry → Entry)
    (h : k ∉ keys m) : updateKey m k f = m := by
  induction m with
  | nil => rfl
  | cons p m ih =>
    simp only [keys, List.map_cons, List.mem_cons, not_or] at h
    simp only [updateKey, List.map_cons]
    rw [if_neg (by simpa using fun hek => h.1 hek.symm)]
    have := ih (by simpa [keys] using h.2)
    simpa [updateKey] using this

theorem updateKey_append (m1 m2 : Mapping) (k : String) (f : Entry → Entry) :
    updateKey (m1 ++ m2) k f = updateKey m1 k f ++ updateKey m2 k f := by
  simp [updateKey]

theorem updateKey_append_fresh {m : Mapping} {k : String} (v : Entry)
    (f : Entry → Entry) (h : k ∉ keys m) :
    updateKey (m ++ [(k, v)]) k f = m ++ [(k, f v)] := by
  rw [updateKey_append, updateKey_of_not_mem f h]
  simp [updateKey]

/-! ### Filesystem membership lemmas -/

@[simp] theorem mem_fsCreate {fs : FS} {p q : String} :
    q ∈ fsCreate fs p ↔ q = p ∨ q ∈ fs := by
  by_cases h : fs.contains p
  · have hp : p ∈ fs := by simpa using h
    simp only [fsCreate, h, if_pos]
    constructor
    · exact fun hq => Or.inr hq
    · rintro (rfl | hq)
      · exact hp
      · exact hq
  · simp only [fsCreate]
    rw [if_neg h]
    simp [List.mem_cons]

@[simp] theorem mem_fsRemove {fs : FS} {p q : String} :
    q ∈ fsRemove fs p ↔ q ∈ fs ∧ q ≠ p := by
  simp [fsRemove, List.mem_filter]

/-! ### Characterizing the loop body -/

/-- The poster block, characterized: when the film's key sits freshly at the
end of the mapping, the block extends its entry, bumps the counter, and
transforms filesystem and trace as computed by the pure functions. -/
theorem processPoster_eq (dl : String → HttpResult) (cv : String → String → Bool)
    (film : Film) (m : Mapping) (e : Entry) (hk : film.id ∉ keys m)
    (cnt : Nat) (fs : FS) (evs : List Event) :
    processPoster dl cv film ⟨m ++ [(film.id, e)], cnt, fs, evs⟩ =
      ⟨m ++ [(film.id,
          if posterOk dl cv film then
            { e with poster := some ("/images/" ++ film.id ++ "-poster.webp") }
          else e)],
        cnt + (if posterOk dl cv film then 1 else 0),
        posterFs dl cv film fs,
        evs ++ posterEvents dl film⟩ := by
  have hupd : updateKey (m ++ [(film.id, e)]) film.id (fun en =>
      { en with poster := some ("/images/" ++ film.id ++ "-poster.webp") }) =
      m ++ [(film.id, { e with poster := some ("/images/" ++ film.id ++ "-poster.webp") })] :=
    updateKey_append_fresh _ _ hk
  rcases himg : film.image with _ | url
  · simp [processPoster, posterOk, posterEvents, posterFs, himg]
  · by_cases hu : url == ""
    · simp [processPoster, posterOk, posterEvents, posterFs, himg, hu]
    · rcases hdl : dl url with s | _
      · by_cases hs : s == 200
        · by_cases hcv : cv (posterTempPath film.id) (posterFinalPath film.id)
          · simp [processPoster, himg, hu, downloadFile, hdl, hs,
              convertToWebP, hcv, posterOk, posterEvents, posterFs,
              isSuccess, hupd]
          · simp [processPoster, himg, hu, downloadFile, hdl, hs,
              convertToWebP, hcv, posterOk, posterEvents, posterFs,
              isSuccess]
        · simp [processPoster, himg, hu, downloadFile, hdl, hs,
            posterOk, posterEvents, posterFs, isSuccess]
      · simp [processPoster, himg, hu, downloadFile, hdl,
          posterOk, posterEvents, posterFs, isSuccess]

/-- The banner block, characterized. -/
theorem processBanner_eq (dl : String → HttpResult) (cv : String → String → Bool)
    (film : Film) (m : Mapping) (e : Entry) (hk : film.id ∉ keys m)
    (cnt : Nat) (fs : FS) (evs : List Event) :
    processBanner dl cv film ⟨m ++ [(film.id, e)], cnt, fs, evs⟩ =
      ⟨m ++ [(film.id,
          if bannerOk dl cv film then
            { e with banner := some ("/images/" ++ film.id ++ "-banner.webp") }
          else e)],
        cnt + (if bannerOk dl cv film then 1 else 0),
        bannerFs dl cv film fs,
        evs ++ bannerEvents dl film⟩ := by
  have hupd : updateKey (m ++ [(film.id, e)]) film.id (fun en =>
      { en with banner := some ("/images/" ++ film.id ++ "-banner.webp") }) =
      m ++ [(film.id, { e with banner := some ("/images/" ++ film.id ++ "-banner.webp") })] :=
    updateKey_append_fresh _ _ hk
  rcases himg : film.movie_banner with _ | url
  · simp [processBanner, bannerOk, bannerEvents, bannerFs, himg]
  · by_cases hu : url == ""
    · simp [processBanner, bannerOk, bannerEvents, bannerFs, himg, hu]
    · rcases hdl : dl url with s | _
      · by_cases hs : s == 200
        · by_cases hcv : cv (bannerTempPath film.id) (bannerFinalPath film.id)
          · simp [processBanner, himg, hu, downloadFile, hdl, hs,
              convertToWebP, hcv, bannerOk, bannerEvents, bannerFs,
              isSuccess, hupd]
          · simp [processBanner, himg, hu, downloadFile, hdl, hs,
              convertToWebP, hcv, bannerOk, bannerEvents, bannerFs,
              isSuccess]
        · simp [processBanner, himg, hu, downloadFile, hdl, hs,
            bannerOk, bannerEvents, bannerFs, isSuccess]
      · simp [processBanner, himg, hu, downloadFile, hdl,
          bannerOk, bannerEvents, bannerFs, isSuccess]

/-- One loop iteration, characterized: a film with a fresh id appends the
pair `(film.id, entryFor … film)` to the mapping, adds `filmDelta` to the
counter, applies the two filesystem transforms, and appends its events. -/
theorem processFilm_eq (dl : String → HttpResult) (cv : String → String → Bool)
    (film : Film) (st : PipelineState) (hk : film.id ∉ keys st.mapping) :
    processFilm dl cv st film =
      { mapping := st.mapping ++ [(film.id, entryFor dl cv film)]
        downloadedCount := st.downloadedCount + filmDelta dl cv film
        fs := bannerFs dl cv film (posterFs dl cv film st.fs)
        events := st.events ++ filmEvents dl film } := by
  obtain ⟨ma, cnt, fs, evs⟩ := st
  simp only [keys] at hk
  have h0 : (setKey ma film.id {}) = ma ++ [(film.id, ({} : Entry))] :=
    setKey_fresh _ hk
  simp only [processFilm, h0]
  rw [processPoster_eq dl cv film ma {} hk cnt fs evs]
  rw [processBanner_eq dl cv film ma _ hk _ _ _]
  simp only [entryFor, filmDelta, filmEvents]
  cases hp : posterOk dl cv film <;> cases hb : bannerOk dl cv film <;>
    simp [hp, hb, Nat.add_assoc]

/-- The whole loop, characterized on mapping, counter and trace: with
pairwise distinct film ids that are all fresh for the accumulator, the loop
appends one pair per film, adds the per-film deltas, and appends the
per-film events in order. -/
theorem processFilms_eq (dl : String → HttpResult) (cv : String → String → Bool)
    (films : List Film) (st : PipelineState)
    (hnd : (films.map Film.id).Nodup)
    (hfresh : ∀ f ∈ films, f.id ∉ keys st.mapping) :
    (processFilms dl cv st films).mapping =
        st.mapping ++ films.map (fun f => (f.id, entryFor dl cv f)) ∧
    (processFilms dl cv st films).downloadedCount =
        st.downloadedCount + (films.map (filmDelta dl cv)).sum ∧
    (processFilms dl cv st films).events =
        st.events ++ films.flatMap (filmEvents dl) := by
  induction films generalizing st with
  | nil => simp [processFilms]
  | cons film rest ih =>
    simp only [List.map_cons, List.nodup_cons] at hnd
    have hk : film.id ∉ keys st.mapping := hfresh film (by simp)
    have hstep := processFilm_eq dl cv film st hk
    have hfresh' : ∀ f ∈ rest, f.id ∉
        keys (st.mapping ++ [(film.id, entryFor dl cv film)]) := by
      intro f hf
      rw [keys_append]
      simp only [List.mem_append, not_or]
      refine ⟨hfresh f (by simp [hf]), ?_⟩
      intro hmem
      have hfid : f.id = film.id := by simpa [keys] using hmem
      exact hnd.1 (hfid ▸ List.mem_map_of_mem Film.id hf)
    simp only [processFilms, List.foldl_cons] at ih ⊢
    rw [hstep]
    obtain ⟨h1, h2, h3⟩ := ih
      { mapping := st.mapping ++ [(film.id, entryFor dl cv film)]
        downloadedCount := st.downloadedCount + filmDelta dl cv film
        fs := bannerFs dl cv film (posterFs dl cv film st.fs)
        events := st.events ++ filmEvents dl film } hnd.2 hfresh'
    refine ⟨?_, ?_, ?_⟩
    · rw [h1]; simp [List.append_assoc]
    · rw [h2]; simp [Nat.add_assoc]
    · rw [h3]; simp [List.append_assoc]

/-- Looking up a film's id in an association list built by mapping over a
film list with pairwise distinct ids finds that film's value. -/
theorem lookupEntry_map_of_mem (g : Film → Entry) {films : List Film}
    {film : Film} (hnd : (films.map Film.id).Nodup) (hmem : film ∈ films) :
    lookupEntry (films.map (fun f => (f.id, g f))) film.id = some (g film) := by
  induction films with
  | nil => cases hmem
  | cons f0 rest ih =>
    simp only [List.map_cons, List.nodup_cons] at hnd
    rcases List.mem_cons.mp hmem with rfl | hmem'
    · simp [lookupEntry, List.find?_cons_of_pos]
    · have hne : ¬ ((f0.id == film.id) = true) := by
        simp only [beq_iff_eq]
        intro he
        exact hnd.1 (he ▸ List.mem_map_of_mem Film.id hmem')
      simp only [lookupEntry, List.map_cons]
      rw [List.find?_cons_of_neg _ (by simpa using hne)]
      exact ih hnd.2 hmem'

theorem keys_map_films (g : Film → Entry) (films : List Film) :
    keys (films.map (fun f => (f.id, g f))) = films.map Film.id := by
  simp [keys, Function.comp]

/-! ### Path distinctness -/

theorem append_right_cancel_ne {a b : String} (s : String) (h : a ≠ b) :
    a ++ s ≠ b ++ s := by
  intro he
  apply h
  have hd := congrArg String.data he
  rw [String.data_append, String.data_append] at hd
  exact String.ext (List.append_inj' hd rfl).1

theorem append_left_cancel_ne (a : String) {s t : String} (h : s ≠ t) :
    a ++ s ≠ a ++ t := by
  intro he
  apply h
  have hd := congrArg String.data he
  rw [String.data_append, String.data_append] at hd
  exact String.ext (List.append_cancel_left hd)

theorem append_ne_of_ne_same_length {s t : String} (a b : String)
    (hlen : s.data.length = t.data.length) (hst : s ≠ t) : a ++ s ≠ b ++ t := by
  intro he
  apply hst
  have hd := congrArg String.data he
  rw [String.data_append, String.data_append] at hd
  exact String.ext (List.append_inj' hd hlen).2

theorem append_ne_of_getLast_ne {s t : String} (a b : String) (c d : Char)
    (hc : s.data.getLast? = some c) (hd : t.data.getLast? = some d)
    (hcd : c ≠ d) : a ++ s ≠ b ++ t := by
  intro he
  have hdata := congrArg String.data he
  rw [String.data_append, String.data_append] at hdata
  have h1 : (a.data ++ s.data).getLast? = some c := by
    rw [List.getLast?_append, hc]; rfl
  have h2 : (b.data ++ t.data).getLast? = some d := by
    rw [List.getLast?_append, hd]; rfl
  rw [hdata, h2] at h1
  exact hcd (by simpa using h1.symm)

theorem pathJoin_ne (a : String) {x y : String} (h : x ≠ y) :
    pathJoin a x ≠ pathJoin a y :=
  append_left_cancel_ne (a ++ "/") h

theorem posterTempPath_inj {a b : String} (h : a ≠ b) :
    posterTempPath a ≠ posterTempPath b :=
  pathJoin_ne _ (append_right_cancel_ne _ h)

theorem posterFinalPath_inj {a b : String} (h : a ≠ b) :
    posterFinalPath a ≠ posterFinalPath b :=
  pathJoin_ne _ (append_right_cancel_ne _ h)

theorem bannerTempPath_inj {a b : String} (h : a ≠ b) :
    bannerTempPath a ≠ bannerTempPath b :=
  pathJoin_ne _ (append_right_cancel_ne _ h)

theorem bannerFinalPath_inj {a b : String} (h : a ≠ b) :
    bannerFinalPath a ≠ bannerFinalPath b :=
  pathJoin_ne _ (append_right_cancel_ne _ h)

theorem posterTempPath_ne_bannerTempPath (a b : String) :
    posterTempPath a ≠ bannerTempPath b :=
  pathJoin_ne _ (append_ne_of_ne_same_length a b (by decide) (by decide))

theorem posterTempPath_ne_posterFinalPath (a b : String) :
    posterTempPath a ≠ posterFinalPath b :=
  pathJoin_ne _ (append_ne_of_getLast_ne a b 'g' 'p' (by decide) (by decide)
    (by decide))

theorem posterTempPath_ne_bannerFinalPath (a b : String) :
    posterTempPath a ≠ bannerFinalPath b :=
  pathJoin_ne _ (append_ne_of_getLast_ne a b 'g' 'p' (by decide) (by decide)
    (by decide))

theorem bannerTempPath_ne_posterFinalPath (a b : String) :
    bannerTempPath a ≠ posterFinalPath b :=
  pathJoin_ne _ (append_ne_of_getLast_ne a b 'g' 'p' (by decide) (by decide)
    (by decide))

theorem bannerTempPath_ne_bannerFinalPath (a b : String) :
    bannerTempPath a ≠ bannerFinalPath b :=
  pathJoin_ne _ (append_ne_of_getLast_ne a b 'g' 'p' (by decide) (by decide)
    (by decide))

theorem posterFinalPath_ne_bannerFinalPath (a b : String) :
    posterFinalPath a ≠ bannerFinalPath b :=
  pathJoin_ne _ (append_ne_of_ne_same_length a b (by decide) (by decide))

/-! ### Filesystem frame and local-effect lemmas -/

/-- The poster block touches only the film's own poster temp and final
paths. -/
theorem mem_posterFs_of_ne (dl : String → HttpResult) (cv : String → String → Bool)
    (film : Film) (fs : FS) {p : String}
    (h1 : p ≠ posterTempPath film.id) (h2 : p ≠ posterFinalPath film.id) :
    p ∈ posterFs dl cv film fs ↔ p ∈ fs := by
  rcases himg : film.image with _ | url
  · simp [posterFs, himg]
  · by_cases hu : url == ""
    · simp [posterFs, himg, hu]
    · rcases hdl : dl url with s | _
      · by_cases hs : s == 200
        · by_cases hcv : cv (posterTempPath film.id) (posterFinalPath film.id)
          · simp [posterFs, himg, hu, hdl, hs, hcv, h1, h2]
          · simp [posterFs, himg, hu, hdl, hs, hcv, h1]
        · simp [posterFs, himg, hu, hdl, hs, h1]
      · simp [posterFs, himg, hu, hdl, h1]

/-- The banner block touches only the film's own banner temp and final
paths. -/
theorem mem_bannerFs_of_ne (dl : String → HttpResult) (cv : String → String → Bool)
    (film : Film) (fs : FS) {p : String}
    (h1 : p ≠ bannerTempPath film.id) (h2 : p ≠ bannerFinalPath film.id) :
    p ∈ bannerFs dl cv film fs ↔ p ∈ fs := by
  rcases himg : film.movie_banner with _ | url
  · simp [bannerFs, himg]
  · by_cases hu : url == ""
    · simp [bannerFs, himg, hu]
    · rcases hdl : dl url with s | _
      · by_cases hs : s == 200
        · by_cases hcv : cv (bannerTempPath film.id) (bannerFinalPath film.id)
          · simp [bannerFs, himg, hu, hdl, hs, hcv, h1, h2]
          · simp [bannerFs, himg, hu, hdl, hs, hcv, h1]
        · simp [bannerFs, himg, hu, hdl, hs, h1]
      · simp [bannerFs, himg, hu, hdl, h1]

/-- Processing one film leaves every path other than its own four
deterministic filenames untouched. -/
theorem processFilm_fs_frame (dl : String → HttpResult) (cv : String → String → Bool)
    (film : Film) (st : PipelineState) {p : String}
    (hk : film.id ∉ keys st.mapping)
    (h1 : p ≠ posterTempPath film.id) (h2 : p ≠ posterFinalPath film.id)
    (h3 : p ≠ bannerTempPath film.id) (h4 : p ≠ bannerFinalPath film.id) :
    p ∈ (processFilm dl cv st film).fs ↔ p ∈ st.fs := by
  rw [processFilm_eq dl cv film st hk]
  exact (mem_bannerFs_of_ne dl cv film _ h3 h4).trans
    (mem_posterFs_of_ne dl cv film _ h1 h2)

/-- Frame lemma for a whole run over films none of whose filenames are `p`. -/
theorem processFilms_fs_frame (dl : String → HttpResult) (cv : String → String → Bool)
    (films : List Film) (st : PipelineState) {p : String}
    (hnd : (films.map Film.id).Nodup)
    (hfresh : ∀ f ∈ films, f.id ∉ keys st.mapping)
    (hp : ∀ f ∈ films, p ≠ posterTempPath f.id ∧ p ≠ posterFinalPath f.id ∧
      p ≠ bannerTempPath f.id ∧ p ≠ bannerFinalPath f.id) :
    p ∈ (processFilms dl cv st films).fs ↔ p ∈ st.fs := by
  induction films generalizing st with
  | nil => simp [processFilms]
  | cons film rest ih =>
    simp only [List.map_cons, List.nodup_cons] at hnd
    have hk : film.id ∉ keys st.mapping := hfresh film (by simp)
    have hfresh' : ∀ f ∈ rest, f.id ∉
        keys (st.mapping ++ [(film.id, entryFor dl cv film)]) := by
      intro f hf
      rw [keys_append]
      simp only [List.mem_append, not_or]
      refine ⟨hfresh f (by simp [hf]), ?_⟩
      intro hmem
      have hfid : f.id = film.id := by simpa [keys] using hmem
      exact hnd.1 (hfid ▸ List.mem_map_of_mem Film.id hf)
    simp only [processFilms, List.foldl_cons] at ih ⊢
    rw [processFilm_eq dl cv film st hk]
    have hrest := ih
      { mapping := st.mapping ++ [(film.id, entryFor dl cv film)]
        downloadedCount := st.downloadedCount + filmDelta dl cv film
        fs := bannerFs dl cv film (posterFs dl cv film st.fs)
        events := st.events ++ filmEvents dl film } hnd.2 hfresh'
      (fun f hf => hp f (by simp [hf]))
    rw [hrest]
    obtain ⟨h1, h2, h3, h4⟩ := hp film (by simp)
    exact (mem_bannerFs_of_ne dl cv film _ h3 h4).trans
      (mem_posterFs_of_ne dl cv film _ h1 h2)

/-- After a transport error on the poster URL the temp file is gone. -/
theorem posterTemp_not_mem_of_transport (dl : String → HttpResult)
    (cv : String → String → Bool) (film : Film) (fs : FS) {url : String}
    (himg : film.image = some url) (hu : url ≠ "")
    (hdl : dl url = HttpResult.transportError) :
    posterTempPath film.id ∉ posterFs dl cv film fs := by
  simp [posterFs, himg, hu, hdl]

/-- After a non-success HTTP status on the poster URL the temp file created
by opening the write stream is still there. -/
theorem posterTemp_mem_of_httpFail (dl : String → HttpResult)
    (cv : String → String → Bool) (film : Film) (fs : FS) {url : String}
    {s : Nat} (himg : film.image = some url) (hu : url ≠ "")
    (hdl : dl url = HttpResult.response s) (hs : s ≠ 200) :
    posterTempPath film.id ∈ posterFs dl cv film fs := by
  simp [posterFs, himg, hu, hdl, hs]

/-- After a successful poster download whose conversion fails, the temp file
is still there. -/
theorem posterTemp_mem_of_cvFail (dl : String → HttpResult)
    (cv : String → String → Bool) (film : Film) (fs : FS) {url : String}
    (himg : film.image = some url) (hu : url ≠ "")
    (hdl : dl url = HttpResult.response 200)
    (hcv : cv (posterTempPath film.id) (posterFinalPath film.id) = false) :
    posterTempPath film.id ∈ posterFs dl cv film fs := by
  simp [posterFs, himg, hu, hdl, hcv]

/-- After a successful poster download and conversion, the temp file is gone
and the `.webp` output exists. -/
theorem posterFs_of_cvOk (dl : String → HttpResult)
    (cv : String → String → Bool) (film : Film) (fs : FS) {url : String}
    (himg : film.image = some url) (hu : url ≠ "")
    (hdl : dl url = HttpResult.response 200)
    (hcv : cv (posterTempPath film.id) (posterFinalPath film.id) = true) :
    posterTempPath film.id ∉ posterFs dl cv film fs ∧
    posterFinalPath film.id ∈ posterFs dl cv film fs := by
  have hne : posterFinalPath film.id ≠ posterTempPath film.id :=
    (posterTempPath_ne_posterFinalPath film.id film.id).symm
  simp [posterFs, himg, hu, hdl, hcv, hne]

/-- Banner variant of `posterTemp_not_mem_of_transport`. -/
theorem bannerTemp_not_mem_of_transport (dl : String → HttpResult)
    (cv : String → String → Bool) (film : Film) (fs : FS) {url : String}
    (himg : film.movie_banner = some url) (hu : url ≠ "")
    (hdl : dl url = HttpResult.transportError) :
    bannerTempPath film.id ∉ bannerFs dl cv film fs := by
  simp [bannerFs, himg, hu, hdl]

/-- Banner variant of `posterTemp_mem_of_httpFail`. -/
theorem bannerTemp_mem_of_httpFail (dl : String → HttpResult)
    (cv : String → String → Bool) (film : Film) (fs : FS) {url : String}
    {s : Nat} (himg : film.movie_banner = some url) (hu : url ≠ "")
    (hdl : dl url = HttpResult.response s) (hs : s ≠ 200) :
    bannerTempPath film.id ∈ bannerFs dl cv film fs := by
  simp [bannerFs, himg, hu, hdl, hs]

/-- Banner variant of `posterTemp_mem_of_cvFail`. -/
theorem bannerTemp_mem_of_cvFail (dl : String → HttpResult)
    (cv : String → String → Bool) (film : Film) (fs : FS) {url : String}
    (himg : film.movie_banner = some url) (hu : url ≠ "")
    (hdl : dl url = HttpResult.response 200)
    (hcv : cv (bannerTempPath film.id) (bannerFinalPath film.id) = false) :
    bannerTempPath film.id ∈ bannerFs dl cv film fs := by
  simp [bannerFs, himg, hu, hdl, hcv]

/-- Banner variant of `posterFs_of_cvOk`. -/
theorem bannerFs_of_cvOk (dl : String → HttpResult)
    (cv : String → String → Bool) (film : Film) (fs : FS) {url : String}
    (himg : film.movie_banner = some url) (hu : url ≠ "")
    (hdl : dl url = HttpResult.response 200)
    (hcv : cv (bannerTempPath film.id) (bannerFinalPath film.id) = true) :
    bannerTempPath film.id ∉ bannerFs dl cv film fs ∧
    bannerFinalPath film.id ∈ bannerFs dl cv film fs := by
  have hne : bannerFinalPath film.id ≠ bannerTempPath film.id :=
    (bannerTempPath_ne_bannerFinalPath film.id film.id).symm
  simp [bannerFs, himg, hu, hdl, hcv, hne]

/-! ### Event trace lemmas -/

/-- A download event coming from a poster block targets that film's poster
temp path. -/
theorem dest_of_mem_posterEvents (dl : String → HttpResult) (film : Film)
    {url d : String}
    (h : Event.downloadAttempt url d ∈ posterEvents dl film) :
    d = posterTempPath film.id := by
  rcases himg : film.image with _ | u
  · simp [posterEvents, himg] at h
  · by_cases hu : u == ""
    · simp [posterEvents, himg, hu] at h
    · by_cases hsucc : isSuccess (dl u)
      · simp [posterEvents, himg, hu, hsucc] at h
        exact h.2
      · simp [posterEvents, himg, hu, hsucc] at h
        exact h.2

/-- A download event coming from a banner block targets that film's banner
temp path. -/
theorem dest_of_mem_bannerEvents (dl : String → HttpResult) (film : Film)
    {url d : String}
    (h : Event.downloadAttempt url d ∈ bannerEvents dl film) :
    d = bannerTempPath film.id := by
  rcases himg : film.movie_banner with _ | u
  · simp [bannerEvents, himg] at h
  · by_cases hu : u == ""
    · simp [bannerEvents, himg, hu] at h
    · by_cases hsucc : isSuccess (dl u)
      · simp [bannerEvents, himg, hu, hsucc] at h
        exact h.2
      · simp [bannerEvents, himg, hu, hsucc] at h
        exact h.2

/-- An encoder event coming from one film is the quality-60 command on the
film's poster pair or its banner pair. -/
theorem command_of_mem_filmEvents (dl : String → HttpResult) (film : Film)
    {c : String} (h : Event.convertAttempt c ∈ filmEvents dl film) :
    c = cwebpCommand 60 (posterTempPath film.id) (posterFinalPath film.id) ∨
    c = cwebpCommand 60 (bannerTempPath film.id) (bannerFinalPath film.id) := by
  simp only [filmEvents, List.mem_append] at h
  rcases h with h | h
  · left
    rcases himg : film.image with _ | u
    · simp [posterEvents, himg] at h
    · by_cases hu : u == ""
      · simp [posterEvents, himg, hu] at h
      · by_cases hsucc : isSuccess (dl u)
        · simpa [posterEvents, himg, hu, hsucc] using h
        · simp [posterEvents, himg, hu, hsucc] at h
  · right
    rcases himg : film.movie_banner with _ | u
    · simp [bannerEvents, himg] at h
    · by_cases hu : u == ""
      · simp [bannerEvents, himg, hu] at h
      · by_cases hsucc : isSuccess (dl u)
        · simpa [bannerEvents, himg, hu, hsucc] using h
        · simp [bannerEvents, himg, hu, hsucc] at h

/-- A truthy banner URL always yields a banner download attempt, whatever
happened to the poster. -/
theorem bannerAttempt_mem_filmEvents (dl : String → HttpResult) (film : Film)
    {url : String} (himg : film.movie_banner = some url) (hu : url ≠ "") :
    Event.downloadAttempt url (bannerTempPath film.id) ∈ filmEvents dl film := by
  simp only [filmEvents, List.mem_append]
  right
  simp [bannerEvents, himg, hu]

/-- A truthy poster URL always yields a poster download attempt. -/
theorem posterAttempt_mem_filmEvents (dl : String → HttpResult) (film : Film)
    {url : String} (himg : film.image = some url) (hu : url ≠ "") :
    Event.downloadAttempt url (posterTempPath film.id) ∈ filmEvents dl film := by
  simp only [filmEvents, List.mem_append]
  left
  simp [posterEvents, himg, hu]

/-! ### Splitting the deterministic filenames at the extension -/

theorem posterTempPath_splitExt (a : String) :
    posterTempPath a = pathJoin IMAGES_DIR (a ++ "-poster") ++ ".jpg" := by
  have h : ("-poster" ++ ".jpg" : String) = "-poster.jpg" := by decide
  simp [posterTempPath, pathJoin, ← h, String.append_assoc]

theorem posterFinalPath_splitExt (a : String) :
    posterFinalPath a = pathJoin IMAGES_DIR (a ++ "-poster") ++ ".webp" := by
  have h : ("-poster" ++ ".webp" : String) = "-poster.webp" := by decide
  simp [posterFinalPath, pathJoin, ← h, String.append_assoc]

theorem bannerTempPath_splitExt (a : String) :
    bannerTempPath a = pathJoin IMAGES_DIR (a ++ "-banner") ++ ".jpg" := by
  have h : ("-banner" ++ ".jpg" : String) = "-banner.jpg" := by decide
  simp [bannerTempPath, pathJoin, ← h, String.append_assoc]

theorem bannerFinalPath_splitExt (a : String) :
    bannerFinalPath a = pathJoin IMAGES_DIR (a ++ "-banner") ++ ".webp" := by
  have h : ("-banner" ++ ".webp" : String) = "-banner.webp" := by decide
  simp [bannerFinalPath, pathJoin, ← h, String.append_assoc]

theorem processFilms_append (dl : String → HttpResult)
    (cv : String → String → Bool) (st : PipelineState) (l1 l2 : List Film) :
    processFilms dl cv st (l1 ++ l2) =
      processFilms dl cv (processFilms dl cv st l1) l2 := by
  simp [processFilms, List.foldl_append]

theorem processFilms_cons (dl : String → HttpResult)
    (cv : String → String → Bool) (st : PipelineState) (film : Film)
    (l : List Film) :
    processFilms dl cv st (film :: l) =
      processFilms dl cv (processFilm dl cv st film) l := rfl

/-! ### The mapping does not depend on the prior filesystem state -/

theorem processPoster_fs_irrel (dl : String → HttpResult)
    (cv : String → String → Bool) (film : Film) (m : Mapping) (cnt : Nat)
    (ev : List Event) (fsA fsB : FS) :
    (processPoster dl cv film ⟨m, cnt, fsA, ev⟩).mapping =
      (processPoster dl cv film ⟨m, cnt, fsB, ev⟩).mapping ∧
    (processPoster dl cv film ⟨m, cnt, fsA, ev⟩).downloadedCount =
      (processPoster dl cv film ⟨m, cnt, fsB, ev⟩).downloadedCount ∧
    (processPoster dl cv film ⟨m, cnt, fsA, ev⟩).events =
      (processPoster dl cv film ⟨m, cnt, fsB, ev⟩).events := by
  rcases himg : film.image with _ | url
  · simp [processPoster, himg]
  · by_cases hu : url == ""
    · simp [processPoster, himg, hu]
    · rcases hdl : dl url with s | _
      · by_cases hs : s == 200
        · by_cases hcv : cv (posterTempPath film.id) (posterFinalPath film.id)
          · simp [processPoster, himg, hu, downloadFile, hdl, hs,
              convertToWebP, hcv]
          · simp [processPoster, himg, hu, downloadFile, hdl, hs,
              convertToWebP, hcv]
        · simp [processPoster, himg, hu, downloadFile, hdl, hs]
      · simp [processPoster, himg, hu, downloadFile, hdl]

theorem processBanner_fs_irrel (dl : String → HttpResult)
    (cv : String → String → Bool) (film : Film) (m : Mapping) (cnt : Nat)
    (ev : List Event) (fsA fsB : FS) :
    (processBanner dl cv film ⟨m, cnt, fsA, ev⟩).mapping =
      (processBanner dl cv film ⟨m, cnt, fsB, ev⟩).mapping ∧
    (processBanner dl cv film ⟨m, cnt, fsA, ev⟩).downloadedCount =
      (processBanner dl cv film ⟨m, cnt, fsB, ev⟩).downloadedCount ∧
    (processBanner dl cv film ⟨m, cnt, fsA, ev⟩).events =
      (processBanner dl cv film ⟨m, cnt, fsB, ev⟩).events := by
  rcases himg : film.movie_banner with _ | url
  · simp [processBanner, himg]
  · by_cases hu : url == ""
    · simp [processBanner, himg, hu]
    · rcases hdl : dl url with s | _
      · by_cases hs : s == 200
        · by_cases hcv : cv (bannerTempPath film.id) (bannerFinalPath film.id)
          · simp [processBanner, himg, hu, downloadFile, hdl, hs,
              convertToWebP, hcv]
          · simp [processBanner, himg, hu, downloadFile, hdl, hs,
              convertToWebP, hcv]
        · simp [processBanner, himg, hu, downloadFile, hdl, hs]
      · simp [processBanner, himg, hu, downloadFile, hdl]

theorem processFilm_fs_irrel (dl : String → HttpResult)
    (cv : String → String → Bool) (film : Film) (m : Mapping) (cnt : Nat)
    (ev : List Event) (fsA fsB : FS) :
    (processFilm dl cv ⟨m, cnt, fsA, ev⟩ film).mapping =
      (processFilm dl cv ⟨m, cnt, fsB, ev⟩ film).mapping ∧
    (processFilm dl cv ⟨m, cnt, fsA, ev⟩ film).downloadedCount =
      (processFilm dl cv ⟨m, cnt, fsB, ev⟩ film).downloadedCount ∧
    (processFilm dl cv ⟨m, cnt, fsA, ev⟩ film).events =
      (processFilm dl cv ⟨m, cnt, fsB, ev⟩ film).events := by
  obtain ⟨h1, h2, h3⟩ := processPoster_fs_irrel dl cv film
    (setKey m film.id {}) cnt ev fsA fsB
  have hB : processPoster dl cv film ⟨setKey m film.id {}, cnt, fsB, ev⟩ =
      ⟨(processPoster dl cv film ⟨setKey m film.id {}, cnt, fsA, ev⟩).mapping,
       (processPoster dl cv film ⟨setKey m film.id {}, cnt, fsA, ev⟩).downloadedCount,
       (processPoster dl cv film ⟨setKey m film.id {}, cnt, fsB, ev⟩).fs,
       (processPoster dl cv film ⟨setKey m film.id {}, cnt, fsA, ev⟩).events⟩ := by
    rw [h1, h2, h3]
  have hA : processPoster dl cv film ⟨setKey m film.id {}, cnt, fsA, ev⟩ =
      ⟨(processPoster dl cv film ⟨setKey m film.id {}, cnt, fsA, ev⟩).mapping,
       (processPoster dl cv film ⟨setKey m film.id {}, cnt, fsA, ev⟩).downloadedCount,
       (processPoster dl cv film ⟨setKey m film.id {}, cnt, fsA, ev⟩).fs,
       (processPoster dl cv film ⟨setKey m film.id {}, cnt, fsA, ev⟩).events⟩ := rfl
  simp only [processFilm]
  rw [hA, hB]
  exact processBanner_fs_irrel dl cv film _ _ _ _ _

theorem processFilms_fs_irrel (dl : String → HttpResult)
    (cv : String → String → Bool) (films : List Film) :
    ∀ (m : Mapping) (cnt : Nat) (ev : List Event) (fsA fsB : FS),
    (processFilms dl cv ⟨m, cnt, fsA, ev⟩ films).mapping =
      (processFilms dl cv ⟨m, cnt, fsB, ev⟩ films).mapping ∧
    (processFilms dl cv ⟨m, cnt, fsA, ev⟩ films).downloadedCount =
      (processFilms dl cv ⟨m, cnt, fsB, ev⟩ films).downloadedCount ∧
    (processFilms dl cv ⟨m, cnt, fsA, ev⟩ films).events =
      (processFilms dl cv ⟨m, cnt, fsB, ev⟩ films).events := by
  induction films with
  | nil => intro m cnt ev fsA fsB; exact ⟨rfl, rfl, rfl⟩
  | cons film rest ih =>
    intro m cnt ev fsA fsB
    obtain ⟨h1, h2, h3⟩ := processFilm_fs_irrel dl cv film m cnt ev fsA fsB
    have hB : processFilm dl cv ⟨m, cnt, fsB, ev⟩ film =
        ⟨(processFilm dl cv ⟨m, cnt, fsA, ev⟩ film).mapping,
         (processFilm dl cv ⟨m, cnt, fsA, ev⟩ film).downloadedCount,
         (processFilm dl cv ⟨m, cnt, fsB, ev⟩ film).fs,
         (processFilm dl cv ⟨m, cnt, fsA, ev⟩ film).events⟩ := by
      rw [h1, h2, h3]
    have hA : processFilm dl cv ⟨m, cnt, fsA, ev⟩ film =
        ⟨(processFilm dl cv ⟨m, cnt, fsA, ev⟩ film).mapping,
         (processFilm dl cv ⟨m, cnt, fsA, ev⟩ film).downloadedCount,
         (processFilm dl cv ⟨m, cnt, fsA, ev⟩ film).fs,
         (processFilm dl cv ⟨m, cnt, fsA, ev⟩ film).events⟩ := rfl
    rw [processFilms_cons, processFilms_cons, hA, hB]
    exact ih _ _ _ _ _

/-! ### Claims -/

/-- C5: the process exits 0 on a completed run whatever the per-image
outcomes, and exits 1 when the `cwebp` probe fails — in which case no
network event at all is emitted — or when the film-list fetch throws. -/
theorem c5_exit_codes (fetch : FetchResult) (films : List Film)
    (dl : String → HttpResult) (cv : String → String → Bool) (fs0 : FS) :
    ((runMain false fetch dl cv fs0).exitCode = 1 ∧
      (runMain false fetch dl cv fs0).events = []) ∧
    (runMain true FetchResult.fetchError dl cv fs0).exitCode = 1 ∧
    (runMain true (FetchResult.ok films) dl cv fs0).exitCode = 0 :=
  ⟨⟨rfl, rfl⟩, rfl, rfl⟩

/-- C8: the mapping the pipeline writes is a function of the film list and
the per-image outcomes alone; it does not depend on the filesystem state
left by prior runs. -/
theorem c8_mapping_deterministic (present : Bool) (fetch : FetchResult)
    (dl : String → HttpResult) (cv : String → String → Bool) (fs1 fs2 : FS) :
    (runMain present fetch dl cv fs1).mappingWritten =
      (runMain present fetch dl cv fs2).mappingWritten := by
  cases present
  · rfl
  · cases fetch with
    | fetchError => rfl
    | ok films =>
      exact congrArg some
        (processFilms_fs_irrel dl cv films [] 0 [Event.fetchFilms] fs1 fs2).1

/-- C9: the printed "estimated original size" and "estimated savings" are
the fixed multiples 2.7 and 1.7 of the measured WebP total, and the whole
summary is a function of that measured total alone — no pre-conversion size
is consulted. -/
theorem c9_summary_heuristic (files : List String) (size : String → Nat) :
    (mkSummary files size).estimatedOriginalKB =
      27 / 10 * (mkSummary files size).totalKB ∧
    (mkSummary files size).estimatedSavingsKB =
      17 / 10 * (mkSummary files size).totalKB ∧
    ∀ (files2 : List String) (size2 : String → Nat),
      totalSizeBytes files2 size2 = totalSizeBytes files size →
      mkSummary files2 size2 = mkSummary files size := by
  refine ⟨?_, ?_, ?_⟩
  · simp only [mkSummary]; ring
  · simp only [mkSummary]; ring
  · intro files2 size2 h
    simp [mkSummary, h]

/-- Witness for C9 at concrete inputs: one 1024-byte file versus two
512-byte files. -/
theorem c9_summary_heuristic_witness :
    (mkSummary ["a.webp"] (fun _ => 1024)).estimatedOriginalKB =
      27 / 10 * (mkSummary ["a.webp"] (fun _ => 1024)).totalKB ∧
    (mkSummary ["a.webp"] (fun _ => 1024)).estimatedSavingsKB =
      17 / 10 * (mkSummary ["a.webp"] (fun _ => 1024)).totalKB ∧
    totalSizeBytes ["b.webp", "c.webp"] (fun _ => 512) =
      totalSizeBytes ["a.webp"] (fun _ => 1024) ∧
    mkSummary ["b.webp", "c.webp"] (fun _ => 512) =
      mkSummary ["a.webp"] (fun _ => 1024) := by
  obtain ⟨h1, h2, h3⟩ := c9_summary_heuristic ["a.webp"] (fun _ => 1024)
  exact ⟨h1, h2, by decide, h3 _ _ (by decide)⟩

theorem sum_filmDelta_eq_counts (dl : String → HttpResult)
    (cv : String → String → Bool) (films : List Film) :
    (films.map (filmDelta dl cv)).sum =
      countPosters (films.map (fun f => (f.id, entryFor dl cv f))) +
      countBanners (films.map (fun f => (f.id, entryFor dl cv f))) := by
  induction films with
  | nil => simp [countPosters, countBanners]
  | cons film rest ih =>
    have hP : (entryFor dl cv film).poster.isSome = posterOk dl cv film := by
      cases hp : posterOk dl cv film <;> simp [entryFor, hp]
    have hB : (entryFor dl cv film).banner.isSome = bannerOk dl cv film := by
      cases hb : bannerOk dl cv film <;> simp [entryFor, hb]
    simp only [List.map_cons, List.sum_cons, countPosters, countBanners,
      List.countP_cons] at ih ⊢
    rw [ih]
    simp only [hP, hB, filmDelta]
    cases hp : posterOk dl cv film <;> cases hb : bannerOk dl cv film <;>
      simp <;> omega

/-- C6: at the end of a completed run, `downloadedCount` as printed in the
summary equals the number of mapping entries carrying a poster plus the
number carrying a banner. -/
theorem c6_count_eq_entries (films : List Film) (dl : String → HttpResult)
    (cv : String → String → Bool) (fs0 : FS)
    (hnd : (films.map Film.id).Nodup) :
    ∃ m, (runMain true (FetchResult.ok films) dl cv fs0).mappingWritten =
        some m ∧
      (runMain true (FetchResult.ok films) dl cv fs0).downloadedCount =
        countPosters m + countBanners m := by
  obtain ⟨hma, hcnt, _⟩ := processFilms_eq dl cv films
    ⟨[], 0, fs0, [Event.fetchFilms]⟩ hnd (by simp [keys])
  refine ⟨_, rfl, ?_⟩
  show (processFilms dl cv ⟨[], 0, fs0, [Event.fetchFilms]⟩ films).downloadedCount = _
  rw [hcnt, hma, List.nil_append, Nat.zero_add]
  exact sum_filmDelta_eq_counts dl cv films

/-- Witness for C6: one film with both URLs, downloads succeed, poster
conversion succeeds, banner conversion fails. -/
theorem c6_count_eq_entries_witness :
    (([Film.mk "a" "t" (some "u") (some "v")].map Film.id).Nodup) ∧
    ∃ m, (runMain true (FetchResult.ok [Film.mk "a" "t" (some "u") (some "v")])
        (fun _ => HttpResult.response 200)
        (fun i _ => i == posterTempPath "a") []).mappingWritten = some m ∧
      (runMain true (FetchResult.ok [Film.mk "a" "t" (some "u") (some "v")])
        (fun _ => HttpResult.response 200)
        (fun i _ => i == posterTempPath "a") []).downloadedCount =
        countPosters m + countBanners m :=
  ⟨by decide, c6_count_eq_entries _ _ _ _ (by decide)⟩

/-- C10: every fetched film id becomes a key of the written mapping, and a
film for which nothing succeeded (no truthy URL, or failed
download/conversion on each present URL) still maps to the empty entry. -/
theorem c10_every_id_has_entry (films : List Film) (dl : String → HttpResult)
    (cv : String → String → Bool) (fs0 : FS) (film : Film)
    (hnd : (films.map Film.id).Nodup) (hmem : film ∈ films) :
    ∃ m, (runMain true (FetchResult.ok films) dl cv fs0).mappingWritten =
        some m ∧
      film.id ∈ keys m ∧
      (posterOk dl cv film = false → bannerOk dl cv film = false →
        lookupEntry m film.id = some { poster := none, banner := none }) := by
  obtain ⟨hma, _, _⟩ := processFilms_eq dl cv films
    ⟨[], 0, fs0, [Event.fetchFilms]⟩ hnd (by simp [keys])
  refine ⟨_, rfl, ?_, ?_⟩
  · show film.id ∈ keys (processFilms dl cv ⟨[], 0, fs0, [Event.fetchFilms]⟩ films).mapping
    rw [hma, List.nil_append, keys_map_films]
    exact List.mem_map_of_mem Film.id hmem
  · intro hp hb
    show lookupEntry (processFilms dl cv ⟨[], 0, fs0, [Event.fetchFilms]⟩ films).mapping film.id = _
    rw [hma, List.nil_append, lookupEntry_map_of_mem (entryFor dl cv) hnd hmem]
    simp [entryFor, hp, hb]

/-- Witness for C10: a film with no URLs at all still gets an (empty)
mapping entry. -/
theorem c10_every_id_has_entry_witness :
    (([Film.mk "a" "t" none none].map Film.id).Nodup) ∧
    (Film.mk "a" "t" none none) ∈ [Film.mk "a" "t" none none] ∧
    ∃ m, (runMain true (FetchResult.ok [Film.mk "a" "t" none none])
        (fun _ => HttpResult.response 200) (fun _ _ => true) []).mappingWritten =
        some m ∧
      (Film.mk "a" "t" none none).id ∈ keys m ∧
      (posterOk (fun _ => HttpResult.response 200) (fun _ _ => true)
          (Film.mk "a" "t" none none) = false →
        bannerOk (fun _ => HttpResult.response 200) (fun _ _ => true)
          (Film.mk "a" "t" none none) = false →
        lookupEntry m (Film.mk "a" "t" none none).id =
          some { poster := none, banner := none }) :=
  ⟨by decide, by decide,
    c10_every_id_has_entry _ _ _ _ _ (by decide) (by decide)⟩

/-- C1: in a completed run, each film's mapping entry carries the poster
path `/images/{id}-poster.webp` exactly when the record's poster URL is
truthy and both download and conversion succeeded (and `none` otherwise),
likewise for the banner; and a film with no poster URL triggers no download
to its poster temp path at all. -/
theorem c1_mapping_iff_success (films : List Film) (dl : String → HttpResult)
    (cv : String → String → Bool) (fs0 : FS) (film : Film)
    (hnd : (films.map Film.id).Nodup) (hmem : film ∈ films) :
    ∃ m, (runMain true (FetchResult.ok films) dl cv fs0).mappingWritten =
        some m ∧
      lookupEntry m film.id = some
        { poster := if posterOk dl cv film then
            some ("/images/" ++ film.id ++ "-poster.webp") else none
          banner := if bannerOk dl cv film then
            some ("/images/" ++ film.id ++ "-banner.webp") else none } ∧
      (film.image = none → ∀ u,
        Event.downloadAttempt u (posterTempPath film.id) ∉
          (runMain true (FetchResult.ok films) dl cv fs0).events) := by
  obtain ⟨hma, _, hev⟩ := processFilms_eq dl cv films
    ⟨[], 0, fs0, [Event.fetchFilms]⟩ hnd (by simp [keys])
  refine ⟨_, rfl, ?_, ?_⟩
  · show lookupEntry (processFilms dl cv ⟨[], 0, fs0, [Event.fetchFilms]⟩ films).mapping film.id = _
    rw [hma, List.nil_append, lookupEntry_map_of_mem (entryFor dl cv) hnd hmem]
    rfl
  · intro himg u hin
    have hin' : Event.downloadAttempt u (posterTempPath film.id) ∈
        (processFilms dl cv ⟨[], 0, fs0, [Event.fetchFilms]⟩ films).events := hin
    rw [hev] at hin'
    simp only [List.mem_append, List.mem_flatMap, List.mem_singleton] at hin'
    rcases hin' with hin' | ⟨f, hf, hfe⟩
    · simp at hin'
    · simp only [filmEvents, List.mem_append] at hfe
      rcases hfe with hp | hb
      · have hd := dest_of_mem_posterEvents dl f hp
        by_cases hid : f.id = film.id
        · have hff : f = film := List.inj_on_of_nodup_map hnd hf hmem hid
          rw [hff] at hp
          simp [posterEvents, himg] at hp
        · exact absurd hd (posterTempPath_inj fun he => hid he.symm)
      · have hd := dest_of_mem_bannerEvents dl f hb
        exact absurd hd (posterTempPath_ne_bannerTempPath film.id f.id)

/-- Witness for C1: two films, one with both URLs (everything succeeds), one
with no poster URL. -/
theorem c1_mapping_iff_success_witness :
    (([Film.mk "a" "t" (some "u") (some "v"),
       Film.mk "b" "s" none (some "w")].map Film.id).Nodup) ∧
    ∃ m, (runMain true (FetchResult.ok
        [Film.mk "a" "t" (some "u") (some "v"),
         Film.mk "b" "s" none (some "w")])
        (fun _ => HttpResult.response 200) (fun _ _ => true) []).mappingWritten =
        some m ∧
      lookupEntry m (Film.mk "b" "s" none (some "w")).id = some
        { poster := if posterOk (fun _ => HttpResult.response 200)
            (fun _ _ => true) (Film.mk "b" "s" none (some "w")) then
            some ("/images/" ++ (Film.mk "b" "s" none (some "w")).id ++ "-poster.webp") else none
          banner := if bannerOk (fun _ => HttpResult.response 200)
            (fun _ _ => true) (Film.mk "b" "s" none (some "w")) then
            some ("/images/" ++ (Film.mk "b" "s" none (some "w")).id ++ "-banner.webp") else none } ∧
      ((Film.mk "b" "s" none (some "w")).image = none → ∀ u,
        Event.downloadAttempt u (posterTempPath (Film.mk "b" "s" none (some "w")).id) ∉
          (runMain true (FetchResult.ok
            [Film.mk "a" "t" (some "u") (some "v"),
             Film.mk "b" "s" none (some "w")])
            (fun _ => HttpResult.response 200) (fun _ _ => true) []).events) :=
  ⟨by decide, c1_mapping_iff_success _ _ _ _ _ (by decide) (by decide)⟩

/-- C4: the run's trace is, film by film, the poster block's events followed
by the banner block's events; a truthy banner URL is always attempted
whatever happened to the poster (and vice versa); every film gets its key in
the mapping (no abort); and a failed side merely leaves its field `none`. -/
theorem c4_independent_attempts (films : List Film) (dl : String → HttpResult)
    (cv : String → String → Bool) (fs0 : FS)
    (hnd : (films.map Film.id).Nodup) :
    ∃ m, (runMain true (FetchResult.ok films) dl cv fs0).mappingWritten =
        some m ∧
      (runMain true (FetchResult.ok films) dl cv fs0).events =
        [Event.fetchFilms] ++
          films.flatMap (fun f => posterEvents dl f ++ bannerEvents dl f) ∧
      (∀ f ∈ films, f.id ∈ keys m) ∧
      (∀ f ∈ films, ∀ url, f.movie_banner = some url → url ≠ "" →
        Event.downloadAttempt url (bannerTempPath f.id) ∈
          (runMain true (FetchResult.ok films) dl cv fs0).events) ∧
      (∀ f ∈ films, ∀ url, f.image = some url → url ≠ "" →
        Event.downloadAttempt url (posterTempPath f.id) ∈
          (runMain true (FetchResult.ok films) dl cv fs0).events) ∧
      (∀ f ∈ films, posterOk dl cv f = false →
        ∃ e, lookupEntry m f.id = some e ∧ e.poster = none) ∧
      (∀ f ∈ films, bannerOk dl cv f = false →
        ∃ e, lookupEntry m f.id = some e ∧ e.banner = none) := by
  obtain ⟨hma, _, hev⟩ := processFilms_eq dl cv films
    ⟨[], 0, fs0, [Event.fetchFilms]⟩ hnd (by simp [keys])
  have hevents : (runMain true (FetchResult.ok films) dl cv fs0).events =
      [Event.fetchFilms] ++ films.flatMap (filmEvents dl) := hev
  refine ⟨_, rfl, ?_, ?_, ?_, ?_, ?_, ?_⟩
  · rw [hevents]; rfl
  · intro f hf
    show f.id ∈ keys (processFilms dl cv ⟨[], 0, fs0, [Event.fetchFilms]⟩ films).mapping
    rw [hma, List.nil_append, keys_map_films]
    exact List.mem_map_of_mem Film.id hf
  · intro f hf url himg hu
    rw [hevents]
    refine List.mem_append_right _ (List.mem_flatMap.mpr ⟨f, hf, ?_⟩)
    exact bannerAttempt_mem_filmEvents dl f himg hu
  · intro f hf url himg hu
    rw [hevents]
    refine List.mem_append_right _ (List.mem_flatMap.mpr ⟨f, hf, ?_⟩)
    exact posterAttempt_mem_filmEvents dl f himg hu
  · intro f hf hp
    refine ⟨entryFor dl cv f, ?_, by simp [entryFor, hp]⟩
    show lookupEntry (processFilms dl cv ⟨[], 0, fs0, [Event.fetchFilms]⟩ films).mapping f.id = _
    rw [hma, List.nil_append, lookupEntry_map_of_mem (entryFor dl cv) hnd hf]
  · intro f hf hb
    refine ⟨entryFor dl cv f, ?_, by simp [entryFor, hb]⟩
    show lookupEntry (processFilms dl cv ⟨[], 0, fs0, [Event.fetchFilms]⟩ films).mapping f.id = _
    rw [hma, List.nil_append, lookupEntry_map_of_mem (entryFor dl cv) hnd hf]

/-- Membership of a path in the final filesystem of a run, reduced to the
state just after the distinguished film was processed, provided the path is
none of the filenames of the films that follow. -/
theorem mem_run_fs_iff_bannerFs (dl : String → HttpResult)
    (cv : String → String → Bool) (fs0 : FS) (pre post : List Film)
    (film : Film) {p : String}
    (hnd : ((pre ++ film :: post).map Film.id).Nodup)
    (hothers : ∀ i, i ≠ film.id → p ≠ posterTempPath i ∧
      p ≠ posterFinalPath i ∧ p ≠ bannerTempPath i ∧ p ≠ bannerFinalPath i) :
    (p ∈ (runMain true (FetchResult.ok (pre ++ film :: post)) dl cv fs0).fs ↔
      p ∈ bannerFs dl cv film (posterFs dl cv film
        (processFilms dl cv ⟨[], 0, fs0, [Event.fetchFilms]⟩ pre).fs)) := by
  have hnd2 := hnd
  simp only [List.map_append, List.map_cons] at hnd2
  rw [List.nodup_append] at hnd2
  obtain ⟨hndPre, hndCons, hdisj⟩ := hnd2
  rw [List.nodup_cons] at hndCons
  obtain ⟨hfidPost, hndPost⟩ := hndCons
  have hfilmPre : film.id ∉ pre.map Film.id := fun hm =>
    hdisj hm (List.mem_cons_self _ _)
  have hpostPre : ∀ f ∈ post, f.id ∉ pre.map Film.id := fun f hf hm =>
    hdisj hm (List.mem_cons_of_mem _ (List.mem_map_of_mem Film.id hf))
  have hpostNe : ∀ f ∈ post, f.id ≠ film.id := fun f hf he =>
    hfidPost (he ▸ List.mem_map_of_mem Film.id hf)
  obtain ⟨hmaP, _, _⟩ := processFilms_eq dl cv pre
    ⟨[], 0, fs0, [Event.fetchFilms]⟩ hndPre (by simp [keys])
  have hkeysP : keys (processFilms dl cv
      ⟨[], 0, fs0, [Event.fetchFilms]⟩ pre).mapping = pre.map Film.id := by
    rw [hmaP, List.nil_append, keys_map_films]
  have hkF : film.id ∉ keys (processFilms dl cv
      ⟨[], 0, fs0, [Event.fetchFilms]⟩ pre).mapping := by
    rw [hkeysP]; exact hfilmPre
  have hfresh' : ∀ f ∈ post, f.id ∉
      keys ((processFilms dl cv ⟨[], 0, fs0, [Event.fetchFilms]⟩ pre).mapping
        ++ [(film.id, entryFor dl cv film)]) := by
    intro f hf
    rw [keys_append, hkeysP]
    simp only [List.mem_append, not_or]
    refine ⟨hpostPre f hf, ?_⟩
    simpa [keys] using hpostNe f hf
  show p ∈ (processFilms dl cv ⟨[], 0, fs0, [Event.fetchFilms]⟩
    (pre ++ film :: post)).fs ↔ _
  rw [processFilms_append, processFilms_cons, processFilm_eq dl cv film _ hkF]
  exact processFilms_fs_frame dl cv post _ hndPost hfresh'
    (fun f hf => hothers f.id (hpostNe f hf))

/-- As `mem_run_fs_iff_bannerFs`, further reduced through the film's banner
block for a path the banner block does not touch. -/
theorem mem_run_fs_iff_posterFs (dl : String → HttpResult)
    (cv : String → String → Bool) (fs0 : FS) (pre post : List Film)
    (film : Film) {p : String}
    (hnd : ((pre ++ film :: post).map Film.id).Nodup)
    (h3 : p ≠ bannerTempPath film.id) (h4 : p ≠ bannerFinalPath film.id)
    (hothers : ∀ i, i ≠ film.id → p ≠ posterTempPath i ∧
      p ≠ posterFinalPath i ∧ p ≠ bannerTempPath i ∧ p ≠ bannerFinalPath i) :
    (p ∈ (runMain true (FetchResult.ok (pre ++ film :: post)) dl cv fs0).fs ↔
      p ∈ posterFs dl cv film
        (processFilms dl cv ⟨[], 0, fs0, [Event.fetchFilms]⟩ pre).fs) :=
  (mem_run_fs_iff_bannerFs dl cv fs0 pre post film hnd hothers).trans
    (mem_bannerFs_of_ne dl cv film _ h3 h4)

/-- C2 counterexample: a poster download rejected with HTTP status 404 does
omit the poster field, but the temp file created by opening the write
stream is still on disk after the run — the claim's "the temporary file
does not exist afterward" fails for non-success HTTP statuses. -/
theorem c2_counterexample :
    (runMain true (FetchResult.ok [Film.mk "f1" "T" (some "u") none])
        (fun _ => HttpResult.response 404) (fun _ _ => true) []).mappingWritten =
      some [("f1", { poster := none, banner := none })] ∧
    posterTempPath "f1" ∈
      (runMain true (FetchResult.ok [Film.mk "f1" "T" (some "u") none])
        (fun _ => HttpResult.response 404) (fun _ _ => true) []).fs := by
  constructor <;> decide

/-- C2 amended: a failed download always leaves the mapping field absent; on
a transport error the temp file does not exist afterward, while on a
non-success HTTP status the (empty) temp file created by opening the write
stream remains on disk. -/
theorem c2_amended_download_failure (films : List Film)
    (dl : String → HttpResult) (cv : String → String → Bool) (fs0 : FS)
    (film : Film) (hnd : (films.map Film.id).Nodup) (hmem : film ∈ films) :
    ∃ m, (runMain true (FetchResult.ok films) dl cv fs0).mappingWritten =
        some m ∧
      (∀ url, film.image = some url → url ≠ "" → isSuccess (dl url) = false →
        (∃ e, lookupEntry m film.id = some e ∧ e.poster = none) ∧
        (dl url = HttpResult.transportError →
          posterTempPath film.id ∉
            (runMain true (FetchResult.ok films) dl cv fs0).fs) ∧
        (∀ s, dl url = HttpResult.response s → s ≠ 200 →
          posterTempPath film.id ∈
            (runMain true (FetchResult.ok films) dl cv fs0).fs)) ∧
      (∀ url, film.movie_banner = some url → url ≠ "" →
          isSuccess (dl url) = false →
        (∃ e, lookupEntry m film.id = some e ∧ e.banner = none) ∧
        (dl url = HttpResult.transportError →
          bannerTempPath film.id ∉
            (runMain true (FetchResult.ok films) dl cv fs0).fs) ∧
        (∀ s, dl url = HttpResult.response s → s ≠ 200 →
          bannerTempPath film.id ∈
            (runMain true (FetchResult.ok films) dl cv fs0).fs)) := by
  obtain ⟨pre, post, rfl⟩ := List.append_of_mem hmem
  have hmem' : film ∈ pre ++ film :: post :=
    List.mem_append_right _ (List.mem_cons_self _ _)
  obtain ⟨hma, _, _⟩ := processFilms_eq dl cv (pre ++ film :: post)
    ⟨[], 0, fs0, [Event.fetchFilms]⟩ hnd (by simp [keys])
  have hlook : lookupEntry (processFilms dl cv
      ⟨[], 0, fs0, [Event.fetchFilms]⟩ (pre ++ film :: post)).mapping film.id =
      some (entryFor dl cv film) := by
    rw [hma, List.nil_append]
    exact lookupEntry_map_of_mem (entryFor dl cv) hnd hmem'
  refine ⟨_, rfl, ?_, ?_⟩
  · intro url himg hu hfail
    have hpOk : posterOk dl cv film = false := by
      simp [posterOk, himg, hu, hfail]
    have hothers : ∀ i, i ≠ film.id →
        posterTempPath film.id ≠ posterTempPath i ∧
        posterTempPath film.id ≠ posterFinalPath i ∧
        posterTempPath film.id ≠ bannerTempPath i ∧
        posterTempPath film.id ≠ bannerFinalPath i := fun i hi =>
      ⟨posterTempPath_inj fun he => hi he.symm,
       posterTempPath_ne_posterFinalPath _ _,
       posterTempPath_ne_bannerTempPath _ _,
       posterTempPath_ne_bannerFinalPath _ _⟩
    refine ⟨⟨entryFor dl cv film, hlook, by simp [entryFor, hpOk]⟩, ?_, ?_⟩
    · intro hdl
      rw [mem_run_fs_iff_posterFs dl cv fs0 pre post film hnd
        (posterTempPath_ne_bannerTempPath _ _)
        (posterTempPath_ne_bannerFinalPath _ _) hothers]
      exact posterTemp_not_mem_of_transport dl cv film _ himg hu hdl
    · intro s hdl hs
      rw [mem_run_fs_iff_posterFs dl cv fs0 pre post film hnd
        (posterTempPath_ne_bannerTempPath _ _)
        (posterTempPath_ne_bannerFinalPath _ _) hothers]
      exact posterTemp_mem_of_httpFail dl cv film _ himg hu hdl hs
  · intro url himg hu hfail
    have hbOk : bannerOk dl cv film = false := by
      simp [bannerOk, himg, hu, hfail]
    have hothers : ∀ i, i ≠ film.id →
        bannerTempPath film.id ≠ posterTempPath i ∧
        bannerTempPath film.id ≠ posterFinalPath i ∧
        bannerTempPath film.id ≠ bannerTempPath i ∧
        bannerTempPath film.id ≠ bannerFinalPath i := fun i hi =>
      ⟨(posterTempPath_ne_bannerTempPath i film.id).symm,
       bannerTempPath_ne_posterFinalPath _ _,
       bannerTempPath_inj fun he => hi he.symm,
       bannerTempPath_ne_bannerFinalPath _ _⟩
    refine ⟨⟨entryFor dl cv film, hlook, by simp [entryFor, hbOk]⟩, ?_, ?_⟩
    · intro hdl
      rw [mem_run_fs_iff_bannerFs dl cv fs0 pre post film hnd hothers]
      exact bannerTemp_not_mem_of_transport dl cv film _ himg hu hdl
    · intro s hdl hs
      rw [mem_run_fs_iff_bannerFs dl cv fs0 pre post film hnd hothers]
      exact bannerTemp_mem_of_httpFail dl cv film _ himg hu hdl hs

/-- C3: every encoder invocation in a run is the fixed quality-60 `cwebp`
command on an output path that differs from the temp input only in its
extension; after a successful download, encoder success deletes the temp
file and leaves the `.webp` output, while encoder failure leaves the temp
file, omits the field, and the run still processes every film. -/
theorem c3_convert_quality_cleanup (films : List Film)
    (dl : String → HttpResult) (cv : String → String → Bool) (fs0 : FS)
    (hnd : (films.map Film.id).Nodup) :
    (∀ c, Event.convertAttempt c ∈
        (runMain true (FetchResult.ok films) dl cv fs0).events →
      ∃ b, c = cwebpCommand 60 (b ++ ".jpg") (b ++ ".webp")) ∧
    ∃ m, (runMain true (FetchResult.ok films) dl cv fs0).mappingWritten =
        some m ∧
      (∀ f ∈ films, f.id ∈ keys m) ∧
      (∀ film, film ∈ films → ∀ url, film.image = some url → url ≠ "" →
        dl url = HttpResult.response 200 →
        (cv (posterTempPath film.id) (posterFinalPath film.id) = true →
          posterTempPath film.id ∉
            (runMain true (FetchResult.ok films) dl cv fs0).fs ∧
          posterFinalPath film.id ∈
            (runMain true (FetchResult.ok films) dl cv fs0).fs) ∧
        (cv (posterTempPath film.id) (posterFinalPath film.id) = false →
          posterTempPath film.id ∈
            (runMain true (FetchResult.ok films) dl cv fs0).fs ∧
          (∃ e, lookupEntry m film.id = some e ∧ e.poster = none))) ∧
      (∀ film, film ∈ films → ∀ url, film.movie_banner = some url → url ≠ "" →
        dl url = HttpResult.response 200 →
        (cv (bannerTempPath film.id) (bannerFinalPath film.id) = true →
          bannerTempPath film.id ∉
            (runMain true (FetchResult.ok films) dl cv fs0).fs ∧
          bannerFinalPath film.id ∈
            (runMain true (FetchResult.ok films) dl cv fs0).fs) ∧
        (cv (bannerTempPath film.id) (bannerFinalPath film.id) = false →
          bannerTempPath film.id ∈
            (runMain true (FetchResult.ok films) dl cv fs0).fs ∧
          (∃ e, lookupEntry m film.id = some e ∧ e.banner = none))) := by
  obtain ⟨hma, _, hev⟩ := processFilms_eq dl cv films
    ⟨[], 0, fs0, [Event.fetchFilms]⟩ hnd (by simp [keys])
  constructor
  · intro c hc
    have hc' : Event.convertAttempt c ∈
        (processFilms dl cv ⟨[], 0, fs0, [Event.fetchFilms]⟩ films).events := hc
    rw [hev] at hc'
    simp only [List.mem_append, List.mem_singleton, List.mem_flatMap] at hc'
    rcases hc' with hc' | ⟨f, hf, hfe⟩
    · simp at hc'
    · rcases command_of_mem_filmEvents dl f hfe with h | h
      · exact ⟨pathJoin IMAGES_DIR (f.id ++ "-poster"), by
          rw [h, posterTempPath_splitExt, posterFinalPath_splitExt]⟩
      · exact ⟨pathJoin IMAGES_DIR (f.id ++ "-banner"), by
          rw [h, bannerTempPath_splitExt, bannerFinalPath_splitExt]⟩
  refine ⟨_, rfl, ?_, ?_, ?_⟩
  · intro f hf
    show f.id ∈ keys (processFilms dl cv
      ⟨[], 0, fs0, [Event.fetchFilms]⟩ films).mapping
    rw [hma, List.nil_append, keys_map_films]
    exact List.mem_map_of_mem Film.id hf
  · intro film hmem url himg hu hdl
    obtain ⟨pre, post, hsplit⟩ := List.append_of_mem hmem
    subst hsplit
    have hmem' : film ∈ pre ++ film :: post :=
      List.mem_append_right _ (List.mem_cons_self _ _)
    have hothersT : ∀ i, i ≠ film.id →
        posterTempPath film.id ≠ posterTempPath i ∧
        posterTempPath film.id ≠ posterFinalPath i ∧
        posterTempPath film.id ≠ bannerTempPath i ∧
        posterTempPath film.id ≠ bannerFinalPath i := fun i hi =>
      ⟨posterTempPath_inj fun he => hi he.symm,
       posterTempPath_ne_posterFinalPath _ _,
       posterTempPath_ne_bannerTempPath _ _,
       posterTempPath_ne_bannerFinalPath _ _⟩
    have hothersF : ∀ i, i ≠ film.id →
        posterFinalPath film.id ≠ posterTempPath i ∧
        posterFinalPath film.id ≠ posterFinalPath i ∧
        posterFinalPath film.id ≠ bannerTempPath i ∧
        posterFinalPath film.id ≠ bannerFinalPath i := fun i hi =>
      ⟨(posterTempPath_ne_posterFinalPath i film.id).symm,
       posterFinalPath_inj fun he => hi he.symm,
       (bannerTempPath_ne_posterFinalPath i film.id).symm,
       posterFinalPath_ne_bannerFinalPath _ _⟩
    constructor
    · intro hcv
      constructor
      · rw [mem_run_fs_iff_posterFs dl cv fs0 pre post film hnd
          (posterTempPath_ne_bannerTempPath _ _)
          (posterTempPath_ne_bannerFinalPath _ _) hothersT]
        exact (posterFs_of_cvOk dl cv film _ himg hu hdl hcv).1
      · rw [mem_run_fs_iff_posterFs dl cv fs0 pre post film hnd
          ((bannerTempPath_ne_posterFinalPath film.id film.id).symm)
          ((posterFinalPath_ne_bannerFinalPath film.id film.id))
          hothersF]
        exact (posterFs_of_cvOk dl cv film _ himg hu hdl hcv).2
    · intro hcv
      constructor
      · rw [mem_run_fs_iff_posterFs dl cv fs0 pre post film hnd
          (posterTempPath_ne_bannerTempPath _ _)
          (posterTempPath_ne_bannerFinalPath _ _) hothersT]
        exact posterTemp_mem_of_cvFail dl cv film _ himg hu hdl hcv
      · have hpOk : posterOk dl cv film = false := by
          simp [posterOk, himg, hu, hdl, isSuccess, hcv]
        refine ⟨entryFor dl cv film, ?_, by simp [entryFor, hpOk]⟩
        show lookupEntry (processFilms dl cv
          ⟨[], 0, fs0, [Event.fetchFilms]⟩ (pre ++ film :: post)).mapping film.id = _
        rw [hma, List.nil_append]
        exact lookupEntry_map_of_mem (entryFor dl cv) hnd hmem'
  · intro film hmem url himg hu hdl
    obtain ⟨pre, post, hsplit⟩ := List.append_of_mem hmem
    subst hsplit
    have hmem' : film ∈ pre ++ film :: post :=
      List.mem_append_right _ (List.mem_cons_self _ _)
    have hothersT : ∀ i, i ≠ film.id →
        bannerTempPath film.id ≠ posterTempPath i ∧
        bannerTempPath film.id ≠ posterFinalPath i ∧
        bannerTempPath film.id ≠ bannerTempPath i ∧
        bannerTempPath film.id ≠ bannerFinalPath i := fun i hi =>
      ⟨(posterTempPath_ne_bannerTempPath i film.id).symm,
       bannerTempPath_ne_posterFinalPath _ _,
       bannerTempPath_inj fun he => hi he.symm,
       bannerTempPath_ne_bannerFinalPath _ _⟩
    have hothersF : ∀ i, i ≠ film.id →
        bannerFinalPath film.id ≠ posterTempPath i ∧
        bannerFinalPath film.id ≠ posterFinalPath i ∧
        bannerFinalPath film.id ≠ bannerTempPath i ∧
        bannerFinalPath film.id ≠ bannerFinalPath i := fun i hi =>
      ⟨(posterTempPath_ne_bannerFinalPath i film.id).symm,
       (posterFinalPath_ne_bannerFinalPath i film.id).symm,
       (bannerTempPath_ne_bannerFinalPath i film.id).symm,
       bannerFinalPath_inj fun he => hi he.symm⟩
    constructor
    · intro hcv
      constructor
      · rw [mem_run_fs_iff_bannerFs dl cv fs0 pre post film hnd hothersT]
        exact (bannerFs_of_cvOk dl cv film _ himg hu hdl hcv).1
      · rw [mem_run_fs_iff_bannerFs dl cv fs0 pre post film hnd hothersF]
        exact (bannerFs_of_cvOk dl cv film _ himg hu hdl hcv).2
    · intro hcv
      constructor
      · rw [mem_run_fs_iff_bannerFs dl cv fs0 pre post film hnd hothersT]
        exact bannerTemp_mem_of_cvFail dl cv film _ himg hu hdl hcv
      · have hbOk : bannerOk dl cv film = false := by
          simp [bannerOk, himg, hu, hdl, isSuccess, hcv]
        refine ⟨entryFor dl cv film, ?_, by simp [entryFor, hbOk]⟩
        show lookupEntry (processFilms dl cv
          ⟨[], 0, fs0, [Event.fetchFilms]⟩ (pre ++ film :: post)).mapping film.id = _
        rw [hma, List.nil_append]
        exact lookupEntry_map_of_mem (entryFor dl cv) hnd hmem'

/-- Witness for C4: one film whose poster download fails with a 404 while
its banner succeeds. -/
theorem c4_independent_attempts_witness :
    (([Film.mk "a" "t" (some "u") (some "v")].map Film.id).Nodup) ∧
    ∃ m, (runMain true (FetchResult.ok [Film.mk "a" "t" (some "u") (some "v")])
        (fun url => if url == "u" then HttpResult.response 404 else HttpResult.response 200)
        (fun _ _ => true) []).mappingWritten = some m ∧
      (runMain true (FetchResult.ok [Film.mk "a" "t" (some "u") (some "v")])
        (fun url => if url == "u" then HttpResult.response 404 else HttpResult.response 200)
        (fun _ _ => true) []).events =
        [Event.fetchFilms] ++
          [Film.mk "a" "t" (some "u") (some "v")].flatMap (fun f =>
            posterEvents (fun url => if url == "u" then HttpResult.response 404 else HttpResult.response 200) f ++
            bannerEvents (fun url => if url == "u" then HttpResult.response 404 else HttpResult.response 200) f) ∧
      (∀ f ∈ [Film.mk "a" "t" (some "u") (some "v")], f.id ∈ keys m) ∧
      (∀ f ∈ [Film.mk "a" "t" (some "u") (some "v")], ∀ url,
        f.movie_banner = some url → url ≠ "" →
        Event.downloadAttempt url (bannerTempPath f.id) ∈
          (runMain true (FetchResult.ok [Film.mk "a" "t" (some "u") (some "v")])
            (fun url => if url == "u" then HttpResult.response 404 else HttpResult.response 200)
            (fun _ _ => true) []).events) ∧
      (∀ f ∈ [Film.mk "a" "t" (some "u") (some "v")], ∀ url,
        f.image = some url → url ≠ "" →
        Event.downloadAttempt url (posterTempPath f.id) ∈
          (runMain true (FetchResult.ok [Film.mk "a" "t" (some "u") (some "v")])
            (fun url => if url == "u" then HttpResult.response 404 else HttpResult.response 200)
            (fun _ _ => true) []).events) ∧
      (∀ f ∈ [Film.mk "a" "t" (some "u") (some "v")],
        posterOk (fun url => if url == "u" then HttpResult.response 404 else HttpResult.response 200)
          (fun _ _ => true) f = false →
        ∃ e, lookupEntry m f.id = some e ∧ e.poster = none) ∧
      (∀ f ∈ [Film.mk "a" "t" (some "u") (some "v")],
        bannerOk (fun url => if url == "u" then HttpResult.response 404 else HttpResult.response 200)
          (fun _ _ => true) f = false →
        ∃ e, lookupEntry m f.id = some e ∧ e.banner = none) :=
  ⟨by decide, c4_independent_attempts _ _ _ _ (by decide)⟩

/-- C2 witness: a single film whose poster URL suffers a transport error
and whose banner URL gets HTTP 500. -/
theorem c2_amended_download_failure_witness :
    (([Film.mk "a" "t" (some "u") (some "v")].map Film.id).Nodup) ∧
    ∃ m, (runMain true (FetchResult.ok [Film.mk "a" "t" (some "u") (some "v")])
        (fun url => if url == "u" then HttpResult.transportError
          else HttpResult.response 500)
        (fun _ _ => true) []).mappingWritten = some m ∧
      (∀ url, (Film.mk "a" "t" (some "u") (some "v")).image = some url →
          url ≠ "" →
          isSuccess ((fun url => if url == "u" then HttpResult.transportError
            else HttpResult.response 500) url) = false →
        (∃ e, lookupEntry m (Film.mk "a" "t" (some "u") (some "v")).id =
          some e ∧ e.poster = none) ∧
        ((if url == "u" then HttpResult.transportError
            else HttpResult.response 500) = HttpResult.transportError →
          posterTempPath (Film.mk "a" "t" (some "u") (some "v")).id ∉
            (runMain true (FetchResult.ok [Film.mk "a" "t" (some "u") (some "v")])
              (fun url => if url == "u" then HttpResult.transportError
                else HttpResult.response 500)
              (fun _ _ => true) []).fs) ∧
        (∀ s, (if url == "u" then HttpResult.transportError
            else HttpResult.response 500) = HttpResult.response s → s ≠ 200 →
          posterTempPath (Film.mk "a" "t" (some "u") (some "v")).id ∈
            (runMain true (FetchResult.ok [Film.mk "a" "t" (some "u") (some "v")])
              (fun url => if url == "u" then HttpResult.transportError
                else HttpResult.response 500)
              (fun _ _ => true) []).fs)) ∧
      (∀ url, (Film.mk "a" "t" (some "u") (some "v")).movie_banner = some url →
          url ≠ "" →
          isSuccess ((fun url => if url == "u" then HttpResult.transportError
            else HttpResult.response 500) url) = false →
        (∃ e, lookupEntry m (Film.mk "a" "t" (some "u") (some "v")).id =
          some e ∧ e.banner = none) ∧
        ((if url == "u" then HttpResult.transportError
            else HttpResult.response 500) = HttpResult.transportError →
          bannerTempPath (Film.mk "a" "t" (some "u") (some "v")).id ∉
            (runMain true (FetchResult.ok [Film.mk "a" "t" (some "u") (some "v")])
              (fun url => if url == "u" then HttpResult.transportError
                else HttpResult.response 500)
              (fun _ _ => true) []).fs) ∧
        (∀ s, (if url == "u" then HttpResult.transportError
            else HttpResult.response 500) = HttpResult.response s → s ≠ 200 →
          bannerTempPath (Film.mk "a" "t" (some "u") (some "v")).id ∈
            (runMain true (FetchResult.ok [Film.mk "a" "t" (some "u") (some "v")])
              (fun url => if url == "u" then HttpResult.transportError
                else HttpResult.response 500)
              (fun _ _ => true) []).fs)) :=
  ⟨by decide, c2_amended_download_failure _ _ _ _ _ (by decide) (by decide)⟩

/-- C3 witness: one film, downloads succeed, poster conversion succeeds
while banner conversion fails. -/
theorem c3_convert_quality_cleanup_witness :
    (([Film.mk "a" "t" (some "u") (some "v")].map Film.id).Nodup) ∧
    ((∀ c, Event.convertAttempt c ∈
        (runMain true (FetchResult.ok [Film.mk "a" "t" (some "u") (some "v")])
          (fun _ => HttpResult.response 200)
          (fun i _ => i == posterTempPath "a") []).events →
      ∃ b, c = cwebpCommand 60 (b ++ ".jpg") (b ++ ".webp")) ∧
    ∃ m, (runMain true (FetchResult.ok [Film.mk "a" "t" (some "u") (some "v")])
        (fun _ => HttpResult.response 200)
        (fun i _ => i == posterTempPath "a") []).mappingWritten = some m ∧
      (∀ f ∈ [Film.mk "a" "t" (some "u") (some "v")], f.id ∈ keys m) ∧
      (∀ film, film ∈ [Film.mk "a" "t" (some "u") (some "v")] → ∀ url,
        film.image = some url → url ≠ "" →
        (fun _ => HttpResult.response 200) url = HttpResult.response 200 →
        ((fun i _ => i == posterTempPath "a") (posterTempPath film.id)
            (posterFinalPath film.id) = true →
          posterTempPath film.id ∉
            (runMain true (FetchResult.ok [Film.mk "a" "t" (some "u") (some "v")])
              (fun _ => HttpResult.response 200)
              (fun i _ => i == posterTempPath "a") []).fs ∧
          posterFinalPath film.id ∈
            (runMain true (FetchResult.ok [Film.mk "a" "t" (some "u") (some "v")])
              (fun _ => HttpResult.response 200)
              (fun i _ => i == posterTempPath "a") []).fs) ∧
        ((fun i _ => i == posterTempPath "a") (posterTempPath film.id)
            (posterFinalPath film.id) = false →
          posterTempPath film.id ∈
            (runMain true (FetchResult.ok [Film.mk "a" "t" (some "u") (some "v")])
              (fun _ => HttpResult.response 200)
              (fun i _ => i == posterTempPath "a") []).fs ∧
          (∃ e, lookupEntry m film.id = some e ∧ e.poster = none))) ∧
      (∀ film, film ∈ [Film.mk "a" "t" (some "u") (some "v")] → ∀ url,
        film.movie_banner = some url → url ≠ "" →
        (fun _ => HttpResult.response 200) url = HttpResult.response 200 →
        ((fun i _ => i == posterTempPath "a") (bannerTempPath film.id)
            (bannerFinalPath film.id) = true →
          bannerTempPath film.id ∉
            (runMain true (FetchResult.ok [Film.mk "a" "t" (some "u") (some "v")])
              (fun _ => HttpResult.response 200)
              (fun i _ => i == posterTempPath "a") []).fs ∧
          bannerFinalPath film.id ∈
            (runMain true (FetchResult.ok [Film.mk "a" "t" (some "u") (some "v")])
              (fun _ => HttpResult.response 200)
              (fun i _ => i == posterTempPath "a") []).fs) ∧
        ((fun i _ => i == posterTempPath "a") (bannerTempPath film.id)
            (bannerFinalPath film.id) = false →
          bannerTempPath film.id ∈
            (runMain true (FetchResult.ok [Film.mk "a" "t" (some "u") (some "v")])
              (fun _ => HttpResult.response 200)
              (fun i _ => i == posterTempPath "a") []).fs ∧
          (∃ e, lookupEntry m film.id = some e ∧ e.banner = none)))) :=
  ⟨by decide, c3_convert_quality_cleanup _ _ _ _ (by decide)⟩

/-- C7 counterexample: a mapping entry whose poster path is the empty string
is "contained" in the mapping, yet the accessor returns the fallback, not
that path — JS `||` treats the empty string as absent. -/
theorem c7_counterexample :
    lookupEntry [("a", { poster := some "", banner := none })] "a" =
      some { poster := some "", banner := none } ∧
    LibImages.getFilmPoster [("a", { poster := some "", banner := none })]
      "a" "FB" = "FB" ∧
    "FB" ≠ ("" : String) :=
  ⟨rfl, rfl, by decide⟩

/-- C7 amended: each accessor returns the mapping's stored path whenever the
mapping contains a non-empty one for the id, and the fallback (the
caller-supplied URL in one variant, the fixed placeholder in the other)
whenever the entry or field is missing — or the stored path is empty. -/
theorem c7_amended_accessors (m : Mapping) (filmId fallbackUrl : String) :
    (∀ e p, lookupEntry m filmId = some e → e.poster = some p → p ≠ "" →
      LibImages.getFilmPoster m filmId fallbackUrl = p) ∧
    ((lookupEntry m filmId).bind Entry.poster = none →
      LibImages.getFilmPoster m filmId fallbackUrl = fallbackUrl) ∧
    (∀ e, lookupEntry m filmId = some e → e.poster = some "" →
      LibImages.getFilmPoster m filmId fallbackUrl = fallbackUrl) ∧
    (∀ e p, lookupEntry m filmId = some e → e.banner = some p → p ≠ "" →
      LibImages.getFilmBanner m filmId fallbackUrl = p) ∧
    ((lookupEntry m filmId).bind Entry.banner = none →
      LibImages.getFilmBanner m filmId fallbackUrl = fallbackUrl) ∧
    (∀ e, lookupEntry m filmId = some e → e.banner = some "" →
      LibImages.getFilmBanner m filmId fallbackUrl = fallbackUrl) ∧
    (∀ e p, lookupEntry m filmId = some e → e.poster = some p → p ≠ "" →
      PlaceholderImages.getFilmPoster m filmId = p) ∧
    ((lookupEntry m filmId).bind Entry.poster = none →
      PlaceholderImages.getFilmPoster m filmId = "/images/placeholder.webp") ∧
    (∀ e, lookupEntry m filmId = some e → e.poster = some "" →
      PlaceholderImages.getFilmPoster m filmId = "/images/placeholder.webp") ∧
    (∀ e p, lookupEntry m filmId = some e → e.banner = some p → p ≠ "" →
      PlaceholderImages.getFilmBanner m filmId = p) ∧
    ((lookupEntry m filmId).bind Entry.banner = none →
      PlaceholderImages.getFilmBanner m filmId = "/images/placeholder.webp") ∧
    (∀ e, lookupEntry m filmId = some e → e.banner = some "" →
      PlaceholderImages.getFilmBanner m filmId = "/images/placeholder.webp") := by
  refine ⟨?_, ?_, ?_, ?_, ?_, ?_, ?_, ?_, ?_, ?_, ?_, ?_⟩
  · intro e p he hp hne
    simp [LibImages.getFilmPoster, jsOrString, he, hp, hne]
  · intro h
    simp [LibImages.getFilmPoster, jsOrString, h]
  · intro e he hp
    simp [LibImages.getFilmPoster, jsOrString, he, hp]
  · intro e p he hp hne
    simp [LibImages.getFilmBanner, jsOrString, he, hp, hne]
  · intro h
    simp [LibImages.getFilmBanner, jsOrString, h]
  · intro e he hp
    simp [LibImages.getFilmBanner, jsOrString, he, hp]
  · intro e p he hp hne
    simp [PlaceholderImages.getFilmPoster, jsOrString, he, hp, hne]
  · intro h
    simp [PlaceholderImages.getFilmPoster, jsOrString, h]
  · intro e he hp
    simp [PlaceholderImages.getFilmPoster, jsOrString, he, hp]
  · intro e p he hp hne
    simp [PlaceholderImages.getFilmBanner, jsOrString, he, hp, hne]
  · intro h
    simp [PlaceholderImages.getFilmBanner, jsOrString, h]
  · intro e he hp
    simp [PlaceholderImages.getFilmBanner, jsOrString, he, hp]

/-- C7 witness: one entry with a non-empty poster and an empty-string
banner, exercising the returned-path, missing-field and stored-empty-path
cases across the accessor variants. -/
theorem c7_amended_accessors_witness :
    LibImages.getFilmPoster
      [("a", { poster := some "/images/a-poster.webp", banner := some "" })]
      "a" "FB" = "/images/a-poster.webp" ∧
    LibImages.getFilmBanner
      [("a", { poster := some "/images/a-poster.webp", banner := some "" })]
      "a" "FB" = "FB" ∧
    PlaceholderImages.getFilmPoster
      [("a", { poster := some "/images/a-poster.webp", banner := some "" })]
      "a" = "/images/a-poster.webp" ∧
    PlaceholderImages.getFilmBanner
      [("a", { poster := some "/images/a-poster.webp", banner := some "" })]
      "a" = "/images/placeholder.webp" ∧
    LibImages.getFilmBanner [("b", { poster := none, banner := none })]
      "b" "FB2" = "FB2" :=
  ⟨(c7_amended_accessors _ "a" "FB").1 _ _ rfl rfl (by decide),
   (c7_amended_accessors _ "a" "FB").2.2.2.2.2.1 _ rfl rfl,
   (c7_amended_accessors _ "a" "FB").2.2.2.2.2.2.1 _ _ rfl rfl (by decide),
   (c7_amended_accessors _ "a" "FB").2.2.2.2.2.2.2.2.2.2.2 _ rfl rfl,
   (c7_amended_accessors _ "b" "FB2").2.2.2.2.1 (by decide)⟩

end AstroOblig3
